import Mathlib

/-!
Shallow embedding of the PyOxidizer configuration resolver
(`pyoxidizer/src/pyrepackager/config.rs`) and of the Python resource
collector binding (`pyembed/src/python_resource_collector.rs`),
together with theorems about the resolution algorithm.

TOML deserialization itself is not modelled: `parse_config` is embedded
starting from the already-deserialized `ParsedConfig` document, exactly as
the Rust function proceeds after `toml::from_slice` succeeds.  The
`canonicalize_path` call (defined in `environment.rs`, outside the two
embedded source files) only produces the manifest's containing directory;
it is threaded in as the explicit `origin` string parameter.
-/

namespace PyOx

/-! ## String helpers

Rust string primitives used by `config.rs`, re-implemented over character
lists by structural (or fuel-based) recursion so that every concrete
instance kernel-evaluates.
-/

/-- Rust `str::split(sep)` for a one-character separator: splits into the
(possibly empty) pieces between occurrences of `sep`.  `"" ↦ [""]`,
`"a:b" ↦ ["a", "b"]`, `":" ↦ ["", ""]`, like Rust's iterator collected
into a `Vec`. -/
def splitCharAux (sep : Char) : List Char → List Char → List String
  | [], acc => [String.mk acc.reverse]
  | c :: rest, acc =>
    if c = sep then String.mk acc.reverse :: splitCharAux sep rest []
    else splitCharAux sep rest (c :: acc)

/-- Rust `v.split(sep).collect::<Vec<_>>()` for a `char` separator. -/
def splitChar (sep : Char) (s : String) : List String :=
  splitCharAux sep s.data []

/-- One fuel-measured step list of Rust `str::replace`: leftmost,
non-overlapping replacement of `pat` by `rep`.  The fuel is an upper bound
on the number of characters consumed; each step consumes at least one
character, so fuel `l.length` computes the full replacement.  (An empty
pattern never occurs at the call sites; the guard makes it a no-op.) -/
def replaceFuel (pat rep : List Char) : Nat → List Char → List Char
  | 0, l => l
  | _ + 1, [] => []
  | n + 1, c :: rest =>
    if pat ≠ [] ∧ pat.isPrefixOf (c :: rest) then
      rep ++ replaceFuel pat rep n ((c :: rest).drop pat.length)
    else
      c :: replaceFuel pat rep n rest

/-- Rust `s.replace(pat, rep)`. -/
def replaceAll (s pat rep : String) : String :=
  String.mk (replaceFuel pat.data rep.data s.data.length s.data)

/-- Rust `s.starts_with(pre)`. -/
def startsWithStr (pre s : String) : Bool :=
  pre.data.isPrefixOf s.data

/-- Rust `&value[n..value.len()]` (byte slicing; all patterns sliced here
are ASCII, so character indexing coincides). -/
def dropStr (n : Nat) (s : String) : String :=
  String.mk (s.data.drop n)

/-! ## Manifest data model (`config.rs` input types)

One Lean type per `Deserialize` type in `config.rs`.  Serde defaults
(`ALL`, `ZERO`, `TRUE`, `EMBEDDED`, …) are applied during TOML parsing,
which is upstream of the embedded code, so every field that has a serde
default is stored here already concrete.  `HashMap<String, String>` is
modelled as an association list. -/

/-- `enum ConfigPythonDistribution` (untagged: `Local` / `Url`). -/
inductive ConfigPythonDistribution
  | Local (build_target local_path sha256 : String)
  | Url (build_target url sha256 : String)
deriving Repr, DecidableEq

/-- `pub enum RawAllocator`. -/
inductive RawAllocator
  | Jemalloc
  | Rust
  | System
deriving Repr, DecidableEq

/-- `struct ConfigBuild`. -/
structure ConfigBuild where
  build_target : String
  application_name : Option String
  build_path : Option String
deriving Repr, DecidableEq

/-- `enum ConfigTerminfoResolution`. -/
inductive ConfigTerminfoResolution
  | Dynamic
  | None
  | Static
deriving Repr, DecidableEq

/-- `struct ConfigPython` (an `[[embedded_python_config]]` entry). -/
structure ConfigPython where
  build_target : String
  dont_write_bytecode : Option Bool
  ignore_environment : Option Bool
  no_site : Option Bool
  no_user_site_directory : Option Bool
  optimize_level : Option Int
  stdio_encoding : Option String
  unbuffered_stdio : Option Bool
  filesystem_importer : Option Bool
  sys_frozen : Option Bool
  sys_meipass : Option Bool
  sys_paths : Option (List String)
  raw_allocator : Option RawAllocator
  terminfo_resolution : Option ConfigTerminfoResolution
  terminfo_dirs : Option String
  write_modules_directory_env : Option String
deriving Repr, DecidableEq

/-- `enum ConfigPythonPackaging` (the 12 `[[packaging_rule]]` variants). -/
inductive ConfigPythonPackaging
  | SetupPyInstall (build_target package_path : String)
      (extra_env : List (String × String)) (extra_global_arguments : List String)
      (optimize_level : Int) (include_source : Bool) (install_location : String)
  | StdlibExtensionsPolicy (build_target policy : String)
  | StdlibExtensionsExplicitIncludes (build_target : String) (includes : List String)
  | StdlibExtensionsExplicitExcludes (build_target : String) (excludes : List String)
  | StdlibExtensionVariant (build_target extension variant : String)
  | Stdlib (build_target : String) (optimize_level : Int)
      (exclude_test_modules include_source include_resources : Bool)
      (install_location : String)
  | Virtualenv (build_target path : String) (optimize_level : Int)
      (excludes : List String) (include_source : Bool) (install_location : String)
  | PackageRoot (build_target path : String) (packages : List String)
      (optimize_level : Int) (excludes : List String) (include_source : Bool)
      (install_location : String)
  | PipInstallSimple (build_target package : String) (optimize_level : Int)
      (excludes : List String) (include_source : Bool) (install_location : String)
      (extra_args : Option (List String))
  | PipRequirementsFile (build_target requirements_path : String)
      (optimize_level : Int) (include_source : Bool) (install_location : String)
  | FilterInclude (build_target : String) (files glob_files : List String)
  | WriteLicenseFiles (build_target path : String)
deriving Repr, DecidableEq

/-- `enum ConfigRunMode` (the 4 `[[embedded_python_run]]` variants). -/
inductive ConfigRunMode
  | Noop (build_target : String)
  | Repl (build_target : String)
  | Module (build_target module : String)
  | Eval (build_target code : String)
deriving Repr, DecidableEq

/-- `enum ConfigDistribution` (the 2 `[[distribution]]` variants). -/
inductive ConfigDistribution
  | Tarball (build_target : String) ( path_prefix : Option String)
  | WixInstaller (build_target : String)
      (msi_upgrade_code_x86 msi_upgrade_code_amd64 bundle_upgrade_code : Option String)
deriving Repr, DecidableEq

/-- `struct ParsedConfig`: the deserialized manifest document. -/
structure ParsedConfig where
  builds : List ConfigBuild
  python_distributions : List ConfigPythonDistribution
  python_configs : List ConfigPython
  packaging_rules : List ConfigPythonPackaging
  python_run : List ConfigRunMode
  distributions : List ConfigDistribution
deriving Repr, DecidableEq

/-! ## Resolved configuration (`config.rs` output types) -/

/-- `pub struct BuildConfig` (`PathBuf` modelled as its display string). -/
structure BuildConfig where
  application_name : String
  build_path : String
deriving Repr, DecidableEq

/-- `pub enum PythonDistribution`. -/
inductive PythonDistribution
  | Local (local_path sha256 : String)
  | Url (url sha256 : String)
deriving Repr, DecidableEq

/-- `pub enum InstallLocation`. -/
inductive InstallLocation
  | Embedded
  | AppRelative (path : String)
deriving Repr, DecidableEq

/-- `pub struct PackagingSetupPyInstall`. -/
structure PackagingSetupPyInstall where
  path : String
  extra_env : List (String × String)
  extra_global_arguments : List String
  optimize_level : Int
  include_source : Bool
  install_location : InstallLocation
deriving Repr, DecidableEq

/-- `pub struct PackagingStdlibExtensionsPolicy`. -/
structure PackagingStdlibExtensionsPolicy where
  policy : String
deriving Repr, DecidableEq

/-- `pub struct PackagingStdlibExtensionsExplicitIncludes`. -/
structure PackagingStdlibExtensionsExplicitIncludes where
  includes : List String
deriving Repr, DecidableEq

/-- `pub struct PackagingStdlibExtensionsExplicitExcludes`. -/
structure PackagingStdlibExtensionsExplicitExcludes where
  excludes : List String
deriving Repr, DecidableEq

/-- `pub struct PackagingStdlibExtensionVariant`. -/
structure PackagingStdlibExtensionVariant where
  extension : String
  variant : String
deriving Repr, DecidableEq

/-- `pub struct PackagingStdlib`. -/
structure PackagingStdlib where
  optimize_level : Int
  exclude_test_modules : Bool
  include_source : Bool
  include_resources : Bool
  install_location : InstallLocation
deriving Repr, DecidableEq

/-- `pub struct PackagingVirtualenv`. -/
structure PackagingVirtualenv where
  path : String
  optimize_level : Int
  excludes : List String
  include_source : Bool
  install_location : InstallLocation
deriving Repr, DecidableEq

/-- `pub struct PackagingPackageRoot`. -/
structure PackagingPackageRoot where
  path : String
  packages : List String
  optimize_level : Int
  excludes : List String
  include_source : Bool
  install_location : InstallLocation
deriving Repr, DecidableEq

/-- `pub struct PackagingPipInstallSimple`. -/
structure PackagingPipInstallSimple where
  package : String
  optimize_level : Int
  excludes : List String
  include_source : Bool
  install_location : InstallLocation
  extra_args : Option (List String)
deriving Repr, DecidableEq

/-- `pub struct PackagingPipRequirementsFile`. -/
structure PackagingPipRequirementsFile where
  requirements_path : String
  optimize_level : Int
  include_source : Bool
  install_location : InstallLocation
deriving Repr, DecidableEq

/-- `pub struct PackagingFilterInclude`. -/
structure PackagingFilterInclude where
  files : List String
  glob_files : List String
deriving Repr, DecidableEq

/-- `pub struct PackagingWriteLicenseFiles`. -/
structure PackagingWriteLicenseFiles where
  path : String
deriving Repr, DecidableEq

/-- `pub enum PythonPackaging`. -/
inductive PythonPackaging
  | SetupPyInstall (v : PackagingSetupPyInstall)
  | StdlibExtensionsPolicy (v : PackagingStdlibExtensionsPolicy)
  | StdlibExtensionsExplicitIncludes (v : PackagingStdlibExtensionsExplicitIncludes)
  | StdlibExtensionsExplicitExcludes (v : PackagingStdlibExtensionsExplicitExcludes)
  | StdlibExtensionVariant (v : PackagingStdlibExtensionVariant)
  | Stdlib (v : PackagingStdlib)
  | Virtualenv (v : PackagingVirtualenv)
  | PackageRoot (v : PackagingPackageRoot)
  | PipInstallSimple (v : PackagingPipInstallSimple)
  | PipRequirementsFile (v : PackagingPipRequirementsFile)
  | FilterInclude (v : PackagingFilterInclude)
  | WriteLicenseFiles (v : PackagingWriteLicenseFiles)
deriving Repr, DecidableEq

/-- `pub enum RunMode`. -/
inductive RunMode
  | Noop
  | Repl
  | Module (module : String)
  | Eval (code : String)
deriving Repr, DecidableEq

/-- `pub struct DistributionTarball`. -/
structure DistributionTarball where
  path_prefix : Option String
deriving Repr, DecidableEq

/-- `pub struct DistributionWixInstaller`. -/
structure DistributionWixInstaller where
  msi_upgrade_code_x86 : Option String
  msi_upgrade_code_amd64 : Option String
  bundle_upgrade_code : Option String
deriving Repr, DecidableEq

/-- `pub enum Distribution`. -/
inductive Distribution
  | Tarball (v : DistributionTarball)
  | WixInstaller (v : DistributionWixInstaller)
deriving Repr, DecidableEq

/-- `pub enum TerminfoResolution`. -/
inductive TerminfoResolution
  | Dynamic
  | None
  | Static (dirs : String)
deriving Repr, DecidableEq

/-- `pub struct Config`: the resolved configuration. -/
structure Config where
  config_path : String
  build_config : BuildConfig
  dont_write_bytecode : Bool
  ignore_environment : Bool
  no_site : Bool
  no_user_site_directory : Bool
  optimize_level : Int
  python_distribution : PythonDistribution
  stdio_encoding_name : Option String
  stdio_encoding_errors : Option String
  unbuffered_stdio : Bool
  python_packaging : List PythonPackaging
  run : RunMode
  filesystem_importer : Bool
  sys_frozen : Bool
  sys_meipass : Bool
  sys_paths : List String
  raw_allocator : RawAllocator
  terminfo_resolution : TerminfoResolution
  write_modules_directory_env : Option String
  distributions : List Distribution
deriving Repr, DecidableEq

/-- Outcome of a fallible step of `parse_config`.  Rust's
`Result<_, String>` errors are `err msg` with the exact message string the
source formats.  `panicIndexOutOfBounds` totalizes the one place where the
source can panic instead of returning `Err`: the out-of-bounds `values[1]`
index on a `stdio_encoding` value with no `':'` separator. -/
inductive ParseErr
  | err (msg : String)
  | panicIndexOutOfBounds
deriving Repr, DecidableEq

/-! ## The resolver (`parse_config`)

Each loop / iterator pipeline of the Rust `parse_config` becomes one named
function below; `parse_config` chains them in the source's order.  Every
`if let Some(v) = entry.field { running = v; }` block of the
`embedded_python_config` loop becomes one `apply_*` step. -/

/-- `fn resolve_install_location(value: &str)`. -/
def resolve_install_location (value : String) : Except ParseErr InstallLocation :=
  if value = "embedded" then
    Except.ok InstallLocation.Embedded
  else if startsWithStr "app-relative:" value then
    Except.ok (InstallLocation.AppRelative (dropStr 13 value))
  else
    Except.error (ParseErr.err ("invalid install_location: " ++ value))

/-- The `[[build]]` loop of `parse_config` (lines 533-557): filter entries
whose `build_target` is `"all"` or the requested target, fold last-wins
per field, then require an `application_name`. -/
def resolveBuild (builds : List ConfigBuild) (origin target : String) :
    Except ParseErr BuildConfig :=
  let filtered := builds.filter fun c => c.build_target == "all" || c.build_target == target
  let st := filtered.foldl
    (fun (acc : Option String × String) c =>
      let an := match c.application_name with
        | some name => some name
        | none => acc.1
      let bp := match c.build_path with
        | some path => replaceAll path "$ORIGIN" origin
        | none => acc.2
      (an, bp))
    (none, origin ++ "/build")
  match st.1 with
  | some name => Except.ok { application_name := name, build_path := st.2 }
  | none => Except.error (ParseErr.err "no [[build]] application_name defined")

/-- The closure of the `python_distributions.iter().filter_map(...)`
pipeline (lines 563-596): an entry is converted iff its `build_target`
equals the requested target exactly. -/
def pdMatchConvert (target : String) :
    ConfigPythonDistribution → Option PythonDistribution
  | ConfigPythonDistribution.Local dist_target local_path sha256 =>
    if dist_target = target then some (PythonDistribution.Local local_path sha256)
    else none
  | ConfigPythonDistribution.Url dist_target url sha256 =>
    if dist_target = target then some (PythonDistribution.Url url sha256)
    else none

/-- The `[[python_distribution]]` selection of `parse_config`
(lines 559-606): empty-manifest check, then `.filter_map(..).next()`. -/
def resolvePythonDistribution (ds : List ConfigPythonDistribution)
    (target : String) : Except ParseErr PythonDistribution :=
  if ds.isEmpty then
    Except.error (ParseErr.err "no [[python_distribution]] sections")
  else
    match ds.findSome? (pdMatchConvert target) with
    | some v => Except.ok v
    | none =>
      Except.error
        (ParseErr.err ("no suitable Python distributions found for target " ++ target))

/-- Running state of the `[[embedded_python_config]]` loop: the mutable
locals declared at lines 608-626. -/
structure PyCfgState where
  dont_write_bytecode : Bool
  ignore_environment : Bool
  no_site : Bool
  no_user_site_directory : Bool
  optimize_level : Int
  stdio_encoding_name : Option String
  stdio_encoding_errors : Option String
  unbuffered_stdio : Bool
  filesystem_importer : Bool
  sys_frozen : Bool
  sys_meipass : Bool
  sys_paths : List String
  raw_allocator : RawAllocator
  terminfo_resolution : TerminfoResolution
  write_modules_directory_env : Option String
deriving Repr, DecidableEq

/-- Initial values of the `[[embedded_python_config]]` locals
(lines 608-626); the default raw allocator depends on the target triple. -/
def initPyCfgState (target : String) : PyCfgState where
  dont_write_bytecode := true
  ignore_environment := true
  no_site := true
  no_user_site_directory := true
  optimize_level := 0
  stdio_encoding_name := none
  stdio_encoding_errors := none
  unbuffered_stdio := false
  filesystem_importer := false
  sys_frozen := false
  sys_meipass := false
  sys_paths := []
  raw_allocator :=
    if target = "x86_64-pc-windows-msvc" then RawAllocator.System
    else RawAllocator.Jemalloc
  terminfo_resolution := TerminfoResolution.Dynamic
  write_modules_directory_env := none

/-- `if let Some(v) = python_config.dont_write_bytecode` (lines 633-635). -/
def apply_dont_write_bytecode (s : PyCfgState) (c : ConfigPython) : PyCfgState :=
  match c.dont_write_bytecode with
  | some v => { s with dont_write_bytecode := v }
  | none => s

/-- `if let Some(v) = python_config.ignore_environment` (lines 637-639). -/
def apply_ignore_environment (s : PyCfgState) (c : ConfigPython) : PyCfgState :=
  match c.ignore_environment with
  | some v => { s with ignore_environment := v }
  | none => s

/-- `if let Some(v) = python_config.no_site` (lines 641-643). -/
def apply_no_site (s : PyCfgState) (c : ConfigPython) : PyCfgState :=
  match c.no_site with
  | some v => { s with no_site := v }
  | none => s

/-- `if let Some(v) = python_config.no_user_site_directory` (lines 645-647). -/
def apply_no_user_site_directory (s : PyCfgState) (c : ConfigPython) : PyCfgState :=
  match c.no_user_site_directory with
  | some v => { s with no_user_site_directory := v }
  | none => s

/-- `if let Some(v) = python_config.optimize_level` (lines 649-661): values
other than 0, 1, 2 are a hard error. -/
def apply_optimize_level (s : PyCfgState) (c : ConfigPython) :
    Except ParseErr PyCfgState :=
  match c.optimize_level with
  | some v =>
    if v = 0 ∨ v = 1 ∨ v = 2 then Except.ok { s with optimize_level := v }
    else
      Except.error (ParseErr.err
        ("illegal optimize_level " ++ toString v ++ "; value must be 0, 1, or 2"))
  | none => Except.ok s

/-- `if let Some(ref v) = python_config.stdio_encoding` (lines 663-667):
the source indexes `values[0]` and `values[1]` of the `':'` split without
a bounds check; a missing second element is the modelled panic. -/
def apply_stdio_encoding (s : PyCfgState) (c : ConfigPython) :
    Except ParseErr PyCfgState :=
  match c.stdio_encoding with
  | some v =>
    let values := splitChar ':' v
    match values.get? 0, values.get? 1 with
    | some name, some errs =>
      Except.ok { s with stdio_encoding_name := some name,
                         stdio_encoding_errors := some errs }
    | _, _ => Except.error ParseErr.panicIndexOutOfBounds
  | none => Except.ok s

/-- `if let Some(v) = python_config.unbuffered_stdio` (lines 669-671). -/
def apply_unbuffered_stdio (s : PyCfgState) (c : ConfigPython) : PyCfgState :=
  match c.unbuffered_stdio with
  | some v => { s with unbuffered_stdio := v }
  | none => s

/-- `if let Some(v) = python_config.filesystem_importer` (lines 673-675). -/
def apply_filesystem_importer (s : PyCfgState) (c : ConfigPython) : PyCfgState :=
  match c.filesystem_importer with
  | some v => { s with filesystem_importer := v }
  | none => s

/-- `if let Some(v) = python_config.sys_frozen` (lines 677-679). -/
def apply_sys_frozen (s : PyCfgState) (c : ConfigPython) : PyCfgState :=
  match c.sys_frozen with
  | some v => { s with sys_frozen := v }
  | none => s

/-- `if let Some(v) = python_config.sys_meipass` (lines 681-683). -/
def apply_sys_meipass (s : PyCfgState) (c : ConfigPython) : PyCfgState :=
  match c.sys_meipass with
  | some v => { s with sys_meipass := v }
  | none => s

/-- `if let Some(ref v) = python_config.sys_paths` (lines 685-687): the
whole list is replaced, not appended to. -/
def apply_sys_paths (s : PyCfgState) (c : ConfigPython) : PyCfgState :=
  match c.sys_paths with
  | some v => { s with sys_paths := v }
  | none => s

/-- `if let Some(ref v) = python_config.raw_allocator` (lines 689-691). -/
def apply_raw_allocator (s : PyCfgState) (c : ConfigPython) : PyCfgState :=
  match c.raw_allocator with
  | some v => { s with raw_allocator := v }
  | none => s

/-- `if let Some(ref v) = python_config.terminfo_resolution`
(lines 693-707): the `static` mode requires `terminfo_dirs` on the same
entry. -/
def apply_terminfo_resolution (s : PyCfgState) (c : ConfigPython) :
    Except ParseErr PyCfgState :=
  match c.terminfo_resolution with
  | some ConfigTerminfoResolution.Dynamic =>
    Except.ok { s with terminfo_resolution := TerminfoResolution.Dynamic }
  | some ConfigTerminfoResolution.None =>
    Except.ok { s with terminfo_resolution := TerminfoResolution.None }
  | some ConfigTerminfoResolution.Static =>
    match c.terminfo_dirs with
    | some v => Except.ok { s with terminfo_resolution := TerminfoResolution.Static v }
    | none =>
      Except.error (ParseErr.err
        "terminfo_resolution = static requires terminfo_dirs to be set")
  | none => Except.ok s

/-- `if let Some(ref v) = python_config.write_modules_directory_env`
(lines 709-711). -/
def apply_write_modules_directory_env (s : PyCfgState) (c : ConfigPython) :
    PyCfgState :=
  match c.write_modules_directory_env with
  | some v => { s with write_modules_directory_env := some v }
  | none => s

/-- Body of the `[[embedded_python_config]]` loop for one entry
(lines 633-711), the `if let` blocks applied in source order. -/
def updatePythonConfig (s : PyCfgState) (c : ConfigPython) :
    Except ParseErr PyCfgState := do
  let s := apply_dont_write_bytecode s c
  let s := apply_ignore_environment s c
  let s := apply_no_site s c
  let s := apply_no_user_site_directory s c
  let s ← apply_optimize_level s c
  let s ← apply_stdio_encoding s c
  let s := apply_unbuffered_stdio s c
  let s := apply_filesystem_importer s c
  let s := apply_sys_frozen s c
  let s := apply_sys_meipass s c
  let s := apply_sys_paths s c
  let s := apply_raw_allocator s c
  let s ← apply_terminfo_resolution s c
  let s := apply_write_modules_directory_env s c
  return s

/-- The `[[embedded_python_config]]` loop over the target-filtered entries
(lines 628-712). -/
def foldPythonConfigs (cs : List ConfigPython) (s : PyCfgState) :
    Except ParseErr PyCfgState :=
  match cs with
  | [] => Except.ok s
  | c :: rest => do foldPythonConfigs rest (← updatePythonConfig s c)

/-- The target filter of the `[[embedded_python_config]]` loop
(line 631). -/
def filterPythonConfigs (cs : List ConfigPython) (target : String) :
    List ConfigPython :=
  cs.filter fun c => c.build_target == "all" || c.build_target == target

/-- One arm of the `packaging_rules.iter().map(...)` pipeline
(lines 717-941): a target-matching rule converts (possibly failing on its
`install_location`), a non-matching rule yields `none`. -/
def convertPackagingRule (target : String) :
    ConfigPythonPackaging → Except ParseErr (Option PythonPackaging)
  | ConfigPythonPackaging.FilterInclude rule_target files glob_files =>
    if rule_target = "all" ∨ rule_target = target then
      Except.ok (some (PythonPackaging.FilterInclude
        { files := files, glob_files := glob_files }))
    else Except.ok none
  | ConfigPythonPackaging.PackageRoot rule_target path packages optimize_level
      excludes include_source install_location => do
    if rule_target = "all" ∨ rule_target = target then
      let loc ← resolve_install_location install_location
      Except.ok (some (PythonPackaging.PackageRoot
        { path := path, packages := packages, optimize_level := optimize_level,
          excludes := excludes, include_source := include_source,
          install_location := loc }))
    else Except.ok none
  | ConfigPythonPackaging.PipInstallSimple rule_target package optimize_level
      excludes include_source install_location extra_args => do
    if rule_target = "all" ∨ rule_target = target then
      let loc ← resolve_install_location install_location
      Except.ok (some (PythonPackaging.PipInstallSimple
        { package := package, optimize_level := optimize_level,
          excludes := excludes, include_source := include_source,
          install_location := loc, extra_args := extra_args }))
    else Except.ok none
  | ConfigPythonPackaging.PipRequirementsFile rule_target requirements_path
      optimize_level include_source install_location => do
    if rule_target = "all" ∨ rule_target = target then
      let loc ← resolve_install_location install_location
      Except.ok (some (PythonPackaging.PipRequirementsFile
        { requirements_path := requirements_path, optimize_level := optimize_level,
          include_source := include_source, install_location := loc }))
    else Except.ok none
  | ConfigPythonPackaging.SetupPyInstall rule_target package_path extra_env
      extra_global_arguments optimize_level include_source install_location => do
    if rule_target = "all" ∨ rule_target = target then
      let loc ← resolve_install_location install_location
      Except.ok (some (PythonPackaging.SetupPyInstall
        { path := package_path, extra_env := extra_env,
          extra_global_arguments := extra_global_arguments,
          optimize_level := optimize_level, include_source := include_source,
          install_location := loc }))
    else Except.ok none
  | ConfigPythonPackaging.Stdlib rule_target optimize_level exclude_test_modules
      include_source include_resources install_location => do
    if rule_target = "all" ∨ rule_target = target then
      let loc ← resolve_install_location install_location
      Except.ok (some (PythonPackaging.Stdlib
        { optimize_level := optimize_level,
          exclude_test_modules := exclude_test_modules,
          include_source := include_source,
          include_resources := include_resources, install_location := loc }))
    else Except.ok none
  | ConfigPythonPackaging.StdlibExtensionsExplicitExcludes rule_target excludes =>
    if rule_target = "all" ∨ rule_target = target then
      Except.ok (some (PythonPackaging.StdlibExtensionsExplicitExcludes
        { excludes := excludes }))
    else Except.ok none
  | ConfigPythonPackaging.StdlibExtensionsExplicitIncludes rule_target includes =>
    if rule_target = "all" ∨ rule_target = target then
      Except.ok (some (PythonPackaging.StdlibExtensionsExplicitIncludes
        { includes := includes }))
    else Except.ok none
  | ConfigPythonPackaging.StdlibExtensionsPolicy rule_target policy =>
    if rule_target = "all" ∨ rule_target = target then
      Except.ok (some (PythonPackaging.StdlibExtensionsPolicy { policy := policy }))
    else Except.ok none
  | ConfigPythonPackaging.StdlibExtensionVariant rule_target extension variant =>
    if rule_target = "all" ∨ rule_target = target then
      Except.ok (some (PythonPackaging.StdlibExtensionVariant
        { extension := extension, variant := variant }))
    else Except.ok none
  | ConfigPythonPackaging.Virtualenv rule_target path optimize_level excludes
      include_source install_location => do
    if rule_target = "all" ∨ rule_target = target then
      let loc ← resolve_install_location install_location
      Except.ok (some (PythonPackaging.Virtualenv
        { path := path, optimize_level := optimize_level, excludes := excludes,
          include_source := include_source, install_location := loc }))
    else Except.ok none
  | ConfigPythonPackaging.WriteLicenseFiles rule_target path =>
    if rule_target = "all" ∨ rule_target = target then
      Except.ok (some (PythonPackaging.WriteLicenseFiles { path := path }))
    else Except.ok none

/-- The `have_stdlib_extensions_policy` flag (set at line 882): some
`stdlib-extensions-policy` rule matched the target. -/
def isMatchingPolicy (target : String) : ConfigPythonPackaging → Bool
  | ConfigPythonPackaging.StdlibExtensionsPolicy rule_target _ =>
    rule_target == "all" || rule_target == target
  | _ => false

/-- The `have_stdlib` flag (set at line 836): some `stdlib` rule matched
the target. -/
def isMatchingStdlib (target : String) : ConfigPythonPackaging → Bool
  | ConfigPythonPackaging.Stdlib rule_target _ _ _ _ _ =>
    rule_target == "all" || rule_target == target
  | _ => false

/-- The `[[packaging_rule]]` stage (lines 714-961): convert every rule
(collecting the first conversion error), drop the non-matching entries,
then require a matching `stdlib-extensions-policy` rule and a matching
`stdlib` rule.  The two flags are only observable when the whole `collect`
succeeded, so they equal membership tests over the full rule list. -/
def resolvePackagingRules (rules : List ConfigPythonPackaging) (target : String) :
    Except ParseErr (List PythonPackaging) := do
  let converted ← rules.mapM (convertPackagingRule target)
  let python_packaging := converted.filterMap id
  if !(rules.any (isMatchingPolicy target)) then
    Except.error (ParseErr.err
      "no `type = \"stdlib-extensions-policy\"` entry in `[[packaging_rule]]`")
  else if !(rules.any (isMatchingStdlib target)) then
    Except.error (ParseErr.err "no `type = \"stdlib\"` entry in `[[packaging_rule]]`")
  else
    Except.ok python_packaging

/-- One arm of the `python_run.iter().filter_map(...)` pipeline
(lines 965-1006). -/
def runMatchConvert (target : String) : ConfigRunMode → Option RunMode
  | ConfigRunMode.Eval run_target code =>
    if run_target = "all" ∨ run_target = target then some (RunMode.Eval code)
    else none
  | ConfigRunMode.Module run_target module =>
    if run_target = "all" ∨ run_target = target then some (RunMode.Module module)
    else none
  | ConfigRunMode.Noop run_target =>
    if run_target = "all" ∨ run_target = target then some RunMode.Noop
    else none
  | ConfigRunMode.Repl run_target =>
    if run_target = "all" ∨ run_target = target then some RunMode.Repl
    else none

/-- The `[[embedded_python_run]]` stage (lines 963-1008): `run` starts as
`Noop` and every matching entry overwrites it, so the last match wins. -/
def resolveRunMode (rs : List ConfigRunMode) (target : String) : RunMode :=
  (rs.filterMap (runMatchConvert target)).foldl (fun _ r => r) RunMode.Noop

/-- One arm of the `distributions.iter().map(...)` pipeline
(lines 1015-1043): conversion of a matching `[[distribution]]` entry never
fails, a non-matching entry yields `none`. -/
def convertDistribution (target : String) :
    ConfigDistribution → Except ParseErr (Option Distribution)
  | ConfigDistribution.Tarball rule_target path_prefix =>
    if rule_target = "all" ∨ rule_target = target then
      Except.ok (some (Distribution.Tarball { path_prefix := path_prefix }))
    else Except.ok none
  | ConfigDistribution.WixInstaller rule_target msi_upgrade_code_x86
      msi_upgrade_code_amd64 bundle_upgrade_code =>
    if rule_target = "all" ∨ rule_target = target then
      Except.ok (some (Distribution.WixInstaller
        { msi_upgrade_code_x86 := msi_upgrade_code_x86,
          msi_upgrade_code_amd64 := msi_upgrade_code_amd64,
          bundle_upgrade_code := bundle_upgrade_code }))
    else Except.ok none

/-- The `[[distribution]]` stage (lines 1012-1054). -/
def resolveDistributions (ds : List ConfigDistribution) (target : String) :
    Except ParseErr (List Distribution) := do
  let converted ← ds.mapM (convertDistribution target)
  Except.ok (converted.filterMap id)

/-- `pub fn parse_config` (lines 518-1079), from the deserialized document.
`config_path` is the manifest path, `origin` the canonicalized containing
directory the source computes from it via `canonicalize_path`. -/
def parse_config (config : ParsedConfig) (config_path origin target : String) :
    Except ParseErr Config := do
  let build_config ← resolveBuild config.builds origin target
  let python_distribution ← resolvePythonDistribution config.python_distributions target
  let s ← foldPythonConfigs (filterPythonConfigs config.python_configs target)
    (initPyCfgState target)
  let python_packaging ← resolvePackagingRules config.packaging_rules target
  let run := resolveRunMode config.python_run target
  let filesystem_importer := s.filesystem_importer || !s.sys_paths.isEmpty
  let distributions ← resolveDistributions config.distributions target
  Except.ok
    { config_path := config_path
      build_config := build_config
      dont_write_bytecode := s.dont_write_bytecode
      ignore_environment := s.ignore_environment
      no_site := s.no_site
      no_user_site_directory := s.no_user_site_directory
      optimize_level := s.optimize_level
      python_distribution := python_distribution
      stdio_encoding_name := s.stdio_encoding_name
      stdio_encoding_errors := s.stdio_encoding_errors
      unbuffered_stdio := s.unbuffered_stdio
      python_packaging := python_packaging
      run := run
      filesystem_importer := filesystem_importer
      sys_frozen := s.sys_frozen
      sys_meipass := s.sys_meipass
      sys_paths := s.sys_paths
      raw_allocator := s.raw_allocator
      terminfo_resolution := s.terminfo_resolution
      write_modules_directory_env := s.write_modules_directory_env
      distributions := distributions }

/-! ## Resource collector binding (`python_resource_collector.rs`)

`OxidizedResourceCollector::add_in_memory_impl` dispatches on the dynamic
Python type name of the submitted object.  The wrapped
`PythonResourceCollector` state and its
`add_in_memory_python_module_source` method live in the separate
`python_packaging` crate (outside the embedded sources), so the state is
an abstract type parameter and the method an explicit function
parameter. -/

/-- The resource payload carried by a `PythonModuleSource` object
(`python_resource_types.rs`, outside the embedded sources; its fields are
irrelevant to the collector dispatch). -/
structure PythonModuleSourceResource where
  name : String
  source : String
deriving Repr, DecidableEq

/-- A Python object handed to `add_in_memory`: its dynamic type name, and
the underlying module-source resource when it really is a
`PythonModuleSource` (the `cast_into` of line 58 succeeds iff this is
`some`). -/
structure PyResource where
  typeName : String
  moduleSource : Option PythonModuleSourceResource
deriving Repr, DecidableEq

/-- A raised Python exception, as produced by `add_in_memory_impl`:
`TypeError` / `ValueError` with the formatted message, or the `cast_into`
failure propagated by the `?` at line 58. -/
inductive PyErrKind
  | typeError (msg : String)
  | valueError (msg : String)
  | castFailed
deriving Repr, DecidableEq

/-- `fn add_in_memory_impl(&self, py, resource)` (lines 52-70).  `σ` is the
borrowed `PythonResourceCollector` state;
`add_in_memory_python_module_source` is the external crate method, which
may mutate the state and report an error.  The result pairs the state
after the call with the `PyResult`. -/
def add_in_memory_impl {σ : Type}
    (add_in_memory_python_module_source :
      σ → PythonModuleSourceResource → σ × Except String Unit)
    (collector : σ) (resource : PyResource) : σ × Except PyErrKind Unit :=
  if resource.typeName = "PythonModuleSource" then
    match resource.moduleSource with
    | some module =>
      match add_in_memory_python_module_source collector module with
      | (c, Except.ok _) => (c, Except.ok ())
      | (c, Except.error e) => (c, Except.error (PyErrKind.valueError e))
    | none => (collector, Except.error PyErrKind.castFailed)
  else
    (collector, Except.error (PyErrKind.typeError
      ("cannot operate on " ++ resource.typeName ++ " values")))

/-! ## Concrete sample manifests

Small concrete documents used by the witnesses and counterexamples
below. -/

/-- An `[[embedded_python_config]]` entry with every optional field
absent, targeting `"all"`. -/
def basePy : ConfigPython where
  build_target := "all"
  dont_write_bytecode := none
  ignore_environment := none
  no_site := none
  no_user_site_directory := none
  optimize_level := none
  stdio_encoding := none
  unbuffered_stdio := none
  filesystem_importer := none
  sys_frozen := none
  sys_meipass := none
  sys_paths := none
  raw_allocator := none
  terminfo_resolution := none
  terminfo_dirs := none
  write_modules_directory_env := none

/-- A `[[build]]` entry targeting `"all"` that names the application. -/
def sampleBuild : ConfigBuild where
  build_target := "all"
  application_name := some "myapp"
  build_path := none

/-- A `[[python_distribution]]` entry declared for target `"linux"`. -/
def distLinux : ConfigPythonDistribution :=
  ConfigPythonDistribution.Local "linux" "/dist/cpython.tar.zst" "abc123"

/-- A `[[python_distribution]]` entry declared for the wildcard target. -/
def distAll : ConfigPythonDistribution :=
  ConfigPythonDistribution.Local "all" "/dist/cpython.tar.zst" "abc123"

/-- A `type = "stdlib-extensions-policy"` rule targeting `"all"`. -/
def rulePolicy : ConfigPythonPackaging :=
  ConfigPythonPackaging.StdlibExtensionsPolicy "all" "all"

/-- A `type = "stdlib"` rule targeting `"all"`. -/
def ruleStdlib : ConfigPythonPackaging :=
  ConfigPythonPackaging.Stdlib "all" 0 true true false "embedded"

/-- A minimal manifest that resolves successfully for target `"linux"`. -/
def baseManifest : ParsedConfig where
  builds := [sampleBuild]
  python_distributions := [distLinux]
  python_configs := []
  packaging_rules := [rulePolicy, ruleStdlib]
  python_run := []
  distributions := []

/-! ## Basic lemmas -/

/-- Inversion for a successful `Except.bind`. -/
theorem exceptBind_ok {ε α β : Type} {x : Except ε α} {f : α → Except ε β} {b : β}
    (h : x.bind f = Except.ok b) : ∃ a, x = Except.ok a ∧ f a = Except.ok b := by
  cases x with
  | error e => simp [Except.bind] at h
  | ok a => exact ⟨a, rfl, h⟩

/-- `splitCharAux` never returns the empty list. -/
theorem splitCharAux_ne_nil (sep : Char) (l acc : List Char) :
    splitCharAux sep l acc ≠ [] := by
  induction l generalizing acc with
  | nil => simp [splitCharAux]
  | cons c rest ih =>
    simp only [splitCharAux]
    split
    · simp
    · exact ih (c :: acc)

/-- `splitChar` never returns the empty list (Rust `split` always yields at
least one piece). -/
theorem splitChar_ne_nil (sep : Char) (s : String) : splitChar sep s ≠ [] :=
  splitCharAux_ne_nil sep s.data []

/-- `getD` after `getLast?` of a cons: the head becomes the new default. -/
theorem getLast?_getD_cons {α : Type} (a : α) (l : List α) (d : α) :
    ((a :: l).getLast?).getD d = (l.getLast?).getD a := by
  cases l with
  | nil => rfl
  | cons b l' =>
    rw [List.getLast?_cons_cons]
    obtain ⟨x, hx⟩ := Option.isSome_iff_exists.mp
      (List.getLast?_isSome.mpr (List.cons_ne_nil b l'))
    rw [hx]
    rfl

/-! ## Characterization of the `embedded_python_config` entry update -/

theorem apply_dont_write_bytecode_eq (s : PyCfgState) (c : ConfigPython) :
    apply_dont_write_bytecode s c
      = { s with dont_write_bytecode := c.dont_write_bytecode.getD s.dont_write_bytecode } := by
  simp only [apply_dont_write_bytecode]
  cases c.dont_write_bytecode <;> rfl

theorem apply_ignore_environment_eq (s : PyCfgState) (c : ConfigPython) :
    apply_ignore_environment s c
      = { s with ignore_environment := c.ignore_environment.getD s.ignore_environment } := by
  simp only [apply_ignore_environment]
  cases c.ignore_environment <;> rfl

theorem apply_no_site_eq (s : PyCfgState) (c : ConfigPython) :
    apply_no_site s c = { s with no_site := c.no_site.getD s.no_site } := by
  simp only [apply_no_site]
  cases c.no_site <;> rfl

theorem apply_no_user_site_directory_eq (s : PyCfgState) (c : ConfigPython) :
    apply_no_user_site_directory s c
      = { s with no_user_site_directory := c.no_user_site_directory.getD s.no_user_site_directory } := by
  simp only [apply_no_user_site_directory]
  cases c.no_user_site_directory <;> rfl

theorem apply_unbuffered_stdio_eq (s : PyCfgState) (c : ConfigPython) :
    apply_unbuffered_stdio s c
      = { s with unbuffered_stdio := c.unbuffered_stdio.getD s.unbuffered_stdio } := by
  simp only [apply_unbuffered_stdio]
  cases c.unbuffered_stdio <;> rfl

theorem apply_filesystem_importer_eq (s : PyCfgState) (c : ConfigPython) :
    apply_filesystem_importer s c
      = { s with filesystem_importer := c.filesystem_importer.getD s.filesystem_importer } := by
  simp only [apply_filesystem_importer]
  cases c.filesystem_importer <;> rfl

theorem apply_sys_frozen_eq (s : PyCfgState) (c : ConfigPython) :
    apply_sys_frozen s c = { s with sys_frozen := c.sys_frozen.getD s.sys_frozen } := by
  simp only [apply_sys_frozen]
  cases c.sys_frozen <;> rfl

theorem apply_sys_meipass_eq (s : PyCfgState) (c : ConfigPython) :
    apply_sys_meipass s c = { s with sys_meipass := c.sys_meipass.getD s.sys_meipass } := by
  simp only [apply_sys_meipass]
  cases c.sys_meipass <;> rfl

theorem apply_sys_paths_eq (s : PyCfgState) (c : ConfigPython) :
    apply_sys_paths s c = { s with sys_paths := c.sys_paths.getD s.sys_paths } := by
  simp only [apply_sys_paths]
  cases c.sys_paths <;> rfl

theorem apply_raw_allocator_eq (s : PyCfgState) (c : ConfigPython) :
    apply_raw_allocator s c
      = { s with raw_allocator := c.raw_allocator.getD s.raw_allocator } := by
  simp only [apply_raw_allocator]
  cases c.raw_allocator <;> rfl

theorem apply_write_modules_directory_env_eq (s : PyCfgState) (c : ConfigPython) :
    apply_write_modules_directory_env s c
      = { s with write_modules_directory_env :=
            (c.write_modules_directory_env.map some).getD s.write_modules_directory_env } := by
  simp only [apply_write_modules_directory_env]
  cases c.write_modules_directory_env <;> rfl

/-- The target state of a successful `optimize_level` step. -/
theorem apply_optimize_level_ok_elim {s s' : PyCfgState} {c : ConfigPython}
    (h : apply_optimize_level s c = Except.ok s') :
    s' = { s with optimize_level := c.optimize_level.getD s.optimize_level } := by
  cases hol : c.optimize_level with
  | none =>
    simp only [apply_optimize_level, hol, Except.ok.injEq] at h
    simp [← h, hol]
  | some v =>
    simp only [apply_optimize_level, hol] at h
    split at h
    · simp only [Except.ok.injEq] at h
      simp [← h, hol]
    · exact absurd h (by simp)

/-- An out-of-range `optimize_level` is a hard error, whatever the rest of
the entry holds. -/
theorem apply_optimize_level_invalid {s : PyCfgState} {c : ConfigPython} {v : Int}
    (hol : c.optimize_level = some v) (hv : ¬(v = 0 ∨ v = 1 ∨ v = 2)) :
    apply_optimize_level s c = Except.error (ParseErr.err
      ("illegal optimize_level " ++ toString v ++ "; value must be 0, 1, or 2")) := by
  simp [apply_optimize_level, hol, hv]

/-- An in-range `optimize_level` is stored as given. -/
theorem apply_optimize_level_valid {s : PyCfgState} {c : ConfigPython} {v : Int}
    (hol : c.optimize_level = some v) (hv : v = 0 ∨ v = 1 ∨ v = 2) :
    apply_optimize_level s c = Except.ok { s with optimize_level := v } := by
  simp [apply_optimize_level, hol, hv]

/-- A successful stdio-encoding step stores the first two pieces of the
`':'` split. -/
theorem apply_stdio_encoding_ok_elim {s s' : PyCfgState} {c : ConfigPython}
    (h : apply_stdio_encoding s c = Except.ok s') :
    s' = { s with
      stdio_encoding_name :=
        match c.stdio_encoding with
        | some v => some ((splitChar ':' v).headD "")
        | none => s.stdio_encoding_name
      stdio_encoding_errors :=
        match c.stdio_encoding with
        | some v => (splitChar ':' v).get? 1
        | none => s.stdio_encoding_errors } := by
  cases hse : c.stdio_encoding with
  | none =>
    simp only [apply_stdio_encoding, hse, Except.ok.injEq] at h
    simp [← h]
  | some v =>
    simp only [apply_stdio_encoding, hse] at h
    cases hpieces : splitChar ':' v with
    | nil => exact absurd hpieces (splitChar_ne_nil ':' v)
    | cons p0 rest =>
      rw [hpieces] at h
      cases rest with
      | nil => simp at h
      | cons p1 rest' =>
        simp only [List.get?] at h
        simp only [Except.ok.injEq] at h
        simp [← h, hpieces, List.get?]

/-- A `stdio_encoding` value without a `':'` separator hits the modelled
out-of-bounds panic. -/
theorem apply_stdio_encoding_panic {s : PyCfgState} {c : ConfigPython} {v : String}
    (hse : c.stdio_encoding = some v) (h1 : (splitChar ':' v).get? 1 = none) :
    apply_stdio_encoding s c = Except.error ParseErr.panicIndexOutOfBounds := by
  cases hpieces : splitChar ':' v with
  | nil => exact absurd hpieces (splitChar_ne_nil ':' v)
  | cons p0 rest =>
    cases rest with
    | nil => simp [apply_stdio_encoding, hse, hpieces, List.get?]
    | cons p1 rest' => rw [hpieces] at h1; simp [List.get?] at h1

/-- A well-formed `stdio_encoding` step succeeds. -/
theorem apply_stdio_encoding_some_ok {s : PyCfgState} {c : ConfigPython}
    {v : String} {errs : String}
    (hse : c.stdio_encoding = some v) (h1 : (splitChar ':' v).get? 1 = some errs) :
    apply_stdio_encoding s c = Except.ok { s with
      stdio_encoding_name := some ((splitChar ':' v).headD ""),
      stdio_encoding_errors := some errs } := by
  cases hpieces : splitChar ':' v with
  | nil => exact absurd hpieces (splitChar_ne_nil ':' v)
  | cons p0 rest =>
    rw [hpieces] at h1
    cases rest with
    | nil => simp [List.get?] at h1
    | cons p1 rest' =>
      simp only [List.get?, Option.some.injEq] at h1
      simp [apply_stdio_encoding, hse, hpieces, List.get?, h1]

/-- The target state of a successful terminfo step. -/
theorem apply_terminfo_resolution_ok_elim {s s' : PyCfgState} {c : ConfigPython}
    (h : apply_terminfo_resolution s c = Except.ok s') :
    s' = { s with terminfo_resolution :=
      match c.terminfo_resolution with
      | some ConfigTerminfoResolution.Dynamic => TerminfoResolution.Dynamic
      | some ConfigTerminfoResolution.None => TerminfoResolution.None
      | some ConfigTerminfoResolution.Static =>
        TerminfoResolution.Static (c.terminfo_dirs.getD "")
      | none => s.terminfo_resolution } := by
  cases htr : c.terminfo_resolution with
  | none =>
    simp only [apply_terminfo_resolution, htr, Except.ok.injEq] at h
    simp [← h]
  | some tr =>
    cases tr with
    | Dynamic =>
      simp only [apply_terminfo_resolution, htr, Except.ok.injEq] at h
      simp [← h]
    | None =>
      simp only [apply_terminfo_resolution, htr, Except.ok.injEq] at h
      simp [← h]
    | Static =>
      cases htd : c.terminfo_dirs with
      | none => simp [apply_terminfo_resolution, htr, htd] at h
      | some d =>
        simp only [apply_terminfo_resolution, htr, htd, Except.ok.injEq] at h
        simp [← h, htd]

/-- `terminfo_resolution = static` without `terminfo_dirs` is a hard
error. -/
theorem apply_terminfo_resolution_static_missing {s : PyCfgState} {c : ConfigPython}
    (htr : c.terminfo_resolution = some ConfigTerminfoResolution.Static)
    (htd : c.terminfo_dirs = none) :
    apply_terminfo_resolution s c = Except.error (ParseErr.err
      "terminfo_resolution = static requires terminfo_dirs to be set") := by
  simp [apply_terminfo_resolution, htr, htd]

/-- `terminfo_resolution = static` with `terminfo_dirs` present stores the
directory string. -/
theorem apply_terminfo_resolution_static_ok {s : PyCfgState} {c : ConfigPython} {d : String}
    (htr : c.terminfo_resolution = some ConfigTerminfoResolution.Static)
    (htd : c.terminfo_dirs = some d) :
    apply_terminfo_resolution s c
      = Except.ok { s with terminfo_resolution := TerminfoResolution.Static d } := by
  simp [apply_terminfo_resolution, htr, htd]

theorem exceptBind_ok_eval {ε α β : Type} (a : α) (f : α → Except ε β) :
    (Except.ok a >>= f) = f a := rfl

theorem exceptBind_error_eval {ε α β : Type} (e : ε) (f : α → Except ε β) :
    ((Except.error e : Except ε α) >>= f) = Except.error e := rfl

/-- Inversion for a successful monadic bind on `Except`. -/
theorem bind_ok_elim {ε α β : Type} {x : Except ε α} {f : α → Except ε β} {b : β}
    (h : (x >>= f) = Except.ok b) : ∃ a, x = Except.ok a ∧ f a = Except.ok b := by
  cases x with
  | error e => exact absurd h (by simp [exceptBind_error_eval])
  | ok a => exact ⟨a, rfl, h⟩

/-- `updatePythonConfig` written as the explicit chain of its steps. -/
theorem updatePythonConfig_def (s : PyCfgState) (c : ConfigPython) :
    updatePythonConfig s c =
      (apply_optimize_level
          (apply_no_user_site_directory
            (apply_no_site (apply_ignore_environment (apply_dont_write_bytecode s c) c) c) c)
          c) >>= fun s =>
        (apply_stdio_encoding s c) >>= fun s =>
          (apply_terminfo_resolution
              (apply_raw_allocator
                (apply_sys_paths
                  (apply_sys_meipass
                    (apply_sys_frozen
                      (apply_filesystem_importer (apply_unbuffered_stdio s c) c) c) c) c) c)
              c) >>= fun s =>
            Except.ok (apply_write_modules_directory_env s c) := rfl

/-- The glue record a successful `updatePythonConfig` produces: every
field present in the entry overwrites the running value, every absent
field is retained. -/
theorem updatePythonConfig_ok_elim {s s' : PyCfgState} {c : ConfigPython}
    (h : updatePythonConfig s c = Except.ok s') :
    s' = { dont_write_bytecode := c.dont_write_bytecode.getD s.dont_write_bytecode
           ignore_environment := c.ignore_environment.getD s.ignore_environment
           no_site := c.no_site.getD s.no_site
           no_user_site_directory := c.no_user_site_directory.getD s.no_user_site_directory
           optimize_level := c.optimize_level.getD s.optimize_level
           stdio_encoding_name :=
             match c.stdio_encoding with
             | some v => some ((splitChar ':' v).headD "")
             | none => s.stdio_encoding_name
           stdio_encoding_errors :=
             match c.stdio_encoding with
             | some v => (splitChar ':' v).get? 1
             | none => s.stdio_encoding_errors
           unbuffered_stdio := c.unbuffered_stdio.getD s.unbuffered_stdio
           filesystem_importer := c.filesystem_importer.getD s.filesystem_importer
           sys_frozen := c.sys_frozen.getD s.sys_frozen
           sys_meipass := c.sys_meipass.getD s.sys_meipass
           sys_paths := c.sys_paths.getD s.sys_paths
           raw_allocator := c.raw_allocator.getD s.raw_allocator
           terminfo_resolution :=
             match c.terminfo_resolution with
             | some ConfigTerminfoResolution.Dynamic => TerminfoResolution.Dynamic
             | some ConfigTerminfoResolution.None => TerminfoResolution.None
             | some ConfigTerminfoResolution.Static =>
               TerminfoResolution.Static (c.terminfo_dirs.getD "")
             | none => s.terminfo_resolution
           write_modules_directory_env :=
             (c.write_modules_directory_env.map some).getD s.write_modules_directory_env } := by
  rw [updatePythonConfig_def] at h
  obtain ⟨s5, h5, h⟩ := bind_ok_elim h
  obtain ⟨s6, h6, h⟩ := bind_ok_elim h
  obtain ⟨s7, h7, h⟩ := bind_ok_elim h
  simp only [Except.ok.injEq] at h
  have e5 := apply_optimize_level_ok_elim h5
  have e6 := apply_stdio_encoding_ok_elim h6
  have e7 := apply_terminfo_resolution_ok_elim h7
  subst e5 e6 e7
  rw [← h]
  simp [apply_dont_write_bytecode_eq, apply_ignore_environment_eq, apply_no_site_eq,
    apply_no_user_site_directory_eq, apply_unbuffered_stdio_eq,
    apply_filesystem_importer_eq, apply_sys_frozen_eq, apply_sys_meipass_eq,
    apply_sys_paths_eq, apply_raw_allocator_eq, apply_write_modules_directory_env_eq]

/-- A fully valid entry updates successfully. -/
theorem updatePythonConfig_ok_of_valid (s : PyCfgState) (c : ConfigPython)
    (h1 : ∀ v, c.optimize_level = some v → v = 0 ∨ v = 1 ∨ v = 2)
    (h2 : ∀ v, c.stdio_encoding = some v → ((splitChar ':' v).get? 1).isSome)
    (h3 : c.terminfo_resolution = some ConfigTerminfoResolution.Static →
      c.terminfo_dirs.isSome) :
    ∃ s', updatePythonConfig s c = Except.ok s' := by
  rw [updatePythonConfig_def]
  set s4 := apply_no_user_site_directory
    (apply_no_site (apply_ignore_environment (apply_dont_write_bytecode s c) c) c) c with hs4
  have hok5 : ∃ t, apply_optimize_level s4 c = Except.ok t := by
    cases hol : c.optimize_level with
    | none => exact ⟨s4, by simp [apply_optimize_level, hol]⟩
    | some v => exact ⟨_, apply_optimize_level_valid hol (h1 v hol)⟩
  obtain ⟨s5, h5⟩ := hok5
  rw [h5, exceptBind_ok_eval]
  have hok6 : ∃ t, apply_stdio_encoding s5 c = Except.ok t := by
    cases hse : c.stdio_encoding with
    | none => exact ⟨s5, by simp [apply_stdio_encoding, hse]⟩
    | some v =>
      obtain ⟨errs, herrs⟩ := Option.isSome_iff_exists.mp (h2 v hse)
      exact ⟨_, apply_stdio_encoding_some_ok hse herrs⟩
  obtain ⟨s6, h6⟩ := hok6
  rw [h6, exceptBind_ok_eval]
  set s7pre := apply_raw_allocator
    (apply_sys_paths
      (apply_sys_meipass
        (apply_sys_frozen (apply_filesystem_importer (apply_unbuffered_stdio s6 c) c) c) c)
      c) c with hs7
  have hok7 : ∃ t, apply_terminfo_resolution s7pre c = Except.ok t := by
    cases htr : c.terminfo_resolution with
    | none => exact ⟨s7pre, by simp [apply_terminfo_resolution, htr]⟩
    | some tr =>
      cases tr with
      | Dynamic =>
        exact ⟨{ s7pre with terminfo_resolution := TerminfoResolution.Dynamic },
          by simp [apply_terminfo_resolution, htr]⟩
      | None =>
        exact ⟨{ s7pre with terminfo_resolution := TerminfoResolution.None },
          by simp [apply_terminfo_resolution, htr]⟩
      | Static =>
        obtain ⟨d, hd⟩ := Option.isSome_iff_exists.mp (h3 htr)
        exact ⟨_, apply_terminfo_resolution_static_ok htr hd⟩
  obtain ⟨s7, h7⟩ := hok7
  rw [h7, exceptBind_ok_eval]
  exact ⟨_, rfl⟩

/-- Splitting the config fold over an append. -/
theorem foldPythonConfigs_append (cs1 cs2 : List ConfigPython) (s0 : PyCfgState) :
    foldPythonConfigs (cs1 ++ cs2) s0
      = (foldPythonConfigs cs1 s0) >>= fun s => foldPythonConfigs cs2 s := by
  induction cs1 generalizing s0 with
  | nil => simp [foldPythonConfigs, exceptBind_ok_eval]
  | cons c rest ih =>
    show foldPythonConfigs (c :: (rest ++ cs2)) s0 = _
    simp only [foldPythonConfigs]
    cases hu : updatePythonConfig s0 c with
    | error e => simp [hu, exceptBind_error_eval]
    | ok s1 => simp [hu, exceptBind_ok_eval, ih]

/-- Last-wins characterization of the folded `filesystem_importer`
explicit flag. -/
theorem foldPythonConfigs_filesystem_importer {cs : List ConfigPython}
    {s0 s : PyCfgState} (h : foldPythonConfigs cs s0 = Except.ok s) :
    s.filesystem_importer
      = ((cs.filterMap ConfigPython.filesystem_importer).getLast?).getD
          s0.filesystem_importer := by
  induction cs generalizing s0 with
  | nil =>
    simp only [foldPythonConfigs, Except.ok.injEq] at h
    simp [← h]
  | cons c rest ih =>
    simp only [foldPythonConfigs] at h
    obtain ⟨s1, hu, hrest⟩ := bind_ok_elim h
    have e := updatePythonConfig_ok_elim hu
    have hs1 : s1.filesystem_importer
        = c.filesystem_importer.getD s0.filesystem_importer := by rw [e]
    rw [ih hrest, hs1]
    cases hfc : c.filesystem_importer with
    | none => simp [List.filterMap_cons, hfc]
    | some v => simp [List.filterMap_cons, hfc, getLast?_getD_cons]

/-- Last-wins characterization of the folded `sys_paths` list: each
supplied list replaces the whole running list. -/
theorem foldPythonConfigs_sys_paths {cs : List ConfigPython}
    {s0 s : PyCfgState} (h : foldPythonConfigs cs s0 = Except.ok s) :
    s.sys_paths = ((cs.filterMap ConfigPython.sys_paths).getLast?).getD s0.sys_paths := by
  induction cs generalizing s0 with
  | nil =>
    simp only [foldPythonConfigs, Except.ok.injEq] at h
    simp [← h]
  | cons c rest ih =>
    simp only [foldPythonConfigs] at h
    obtain ⟨s1, hu, hrest⟩ := bind_ok_elim h
    have e := updatePythonConfig_ok_elim hu
    have hs1 : s1.sys_paths = c.sys_paths.getD s0.sys_paths := by rw [e]
    rw [ih hrest, hs1]
    cases hfc : c.sys_paths with
    | none => simp [List.filterMap_cons, hfc]
    | some v => simp [List.filterMap_cons, hfc, getLast?_getD_cons]

/-- Last-wins characterization of the folded `optimize_level` (all entries
of a successful fold carried legal values). -/
theorem foldPythonConfigs_optimize_level {cs : List ConfigPython}
    {s0 s : PyCfgState} (h : foldPythonConfigs cs s0 = Except.ok s) :
    s.optimize_level
      = ((cs.filterMap ConfigPython.optimize_level).getLast?).getD s0.optimize_level := by
  induction cs generalizing s0 with
  | nil =>
    simp only [foldPythonConfigs, Except.ok.injEq] at h
    simp [← h]
  | cons c rest ih =>
    simp only [foldPythonConfigs] at h
    obtain ⟨s1, hu, hrest⟩ := bind_ok_elim h
    have e := updatePythonConfig_ok_elim hu
    have hs1 : s1.optimize_level = c.optimize_level.getD s0.optimize_level := by rw [e]
    rw [ih hrest, hs1]
    cases hfc : c.optimize_level with
    | none => simp [List.filterMap_cons, hfc]
    | some v => simp [List.filterMap_cons, hfc, getLast?_getD_cons]

/-! ## `parse_config` inversion and error propagation -/

/-- Inversion of a successful resolution into its stages. -/
theorem parse_config_ok_elim {config : ParsedConfig} {cp o t : String} {cfg : Config}
    (h : parse_config config cp o t = Except.ok cfg) :
    ∃ bc pd s pp ds,
      resolveBuild config.builds o t = Except.ok bc ∧
      resolvePythonDistribution config.python_distributions t = Except.ok pd ∧
      foldPythonConfigs (filterPythonConfigs config.python_configs t)
        (initPyCfgState t) = Except.ok s ∧
      resolvePackagingRules config.packaging_rules t = Except.ok pp ∧
      resolveDistributions config.distributions t = Except.ok ds ∧
      cfg = { config_path := cp
              build_config := bc
              dont_write_bytecode := s.dont_write_bytecode
              ignore_environment := s.ignore_environment
              no_site := s.no_site
              no_user_site_directory := s.no_user_site_directory
              optimize_level := s.optimize_level
              python_distribution := pd
              stdio_encoding_name := s.stdio_encoding_name
              stdio_encoding_errors := s.stdio_encoding_errors
              unbuffered_stdio := s.unbuffered_stdio
              python_packaging := pp
              run := resolveRunMode config.python_run t
              filesystem_importer := s.filesystem_importer || !s.sys_paths.isEmpty
              sys_frozen := s.sys_frozen
              sys_meipass := s.sys_meipass
              sys_paths := s.sys_paths
              raw_allocator := s.raw_allocator
              terminfo_resolution := s.terminfo_resolution
              write_modules_directory_env := s.write_modules_directory_env
              distributions := ds } := by
  unfold parse_config at h
  obtain ⟨bc, hbc, h⟩ := bind_ok_elim h
  obtain ⟨pd, hpd, h⟩ := bind_ok_elim h
  obtain ⟨s, hs, h⟩ := bind_ok_elim h
  obtain ⟨pp, hpp, h⟩ := bind_ok_elim h
  obtain ⟨ds, hds, h⟩ := bind_ok_elim h
  simp only [Except.ok.injEq] at h
  exact ⟨bc, pd, s, pp, ds, hbc, hpd, hs, hpp, hds, h.symm⟩

/-- A build-stage error is the resolution's error. -/
theorem parse_config_err_build {config : ParsedConfig} {cp o t : String} {e : ParseErr}
    (hb : resolveBuild config.builds o t = Except.error e) :
    parse_config config cp o t = Except.error e := by
  unfold parse_config
  rw [hb]
  rfl

/-- A distribution-stage error is the resolution's error. -/
theorem parse_config_err_dist {config : ParsedConfig} {cp o t : String}
    {bc : BuildConfig} {e : ParseErr}
    (hb : resolveBuild config.builds o t = Except.ok bc)
    (hd : resolvePythonDistribution config.python_distributions t = Except.error e) :
    parse_config config cp o t = Except.error e := by
  unfold parse_config
  rw [hb, exceptBind_ok_eval, hd]
  rfl

/-- An `embedded_python_config` fold error is the resolution's error. -/
theorem parse_config_err_fold {config : ParsedConfig} {cp o t : String}
    {bc : BuildConfig} {pd : PythonDistribution} {e : ParseErr}
    (hb : resolveBuild config.builds o t = Except.ok bc)
    (hd : resolvePythonDistribution config.python_distributions t = Except.ok pd)
    (hf : foldPythonConfigs (filterPythonConfigs config.python_configs t)
      (initPyCfgState t) = Except.error e) :
    parse_config config cp o t = Except.error e := by
  unfold parse_config
  rw [hb, exceptBind_ok_eval, hd, exceptBind_ok_eval, hf]
  rfl

/-- A `packaging_rule` stage error is the resolution's error. -/
theorem parse_config_err_rules {config : ParsedConfig} {cp o t : String}
    {bc : BuildConfig} {pd : PythonDistribution} {s : PyCfgState} {e : ParseErr}
    (hb : resolveBuild config.builds o t = Except.ok bc)
    (hd : resolvePythonDistribution config.python_distributions t = Except.ok pd)
    (hf : foldPythonConfigs (filterPythonConfigs config.python_configs t)
      (initPyCfgState t) = Except.ok s)
    (hr : resolvePackagingRules config.packaging_rules t = Except.error e) :
    parse_config config cp o t = Except.error e := by
  unfold parse_config
  rw [hb, exceptBind_ok_eval, hd, exceptBind_ok_eval, hf, exceptBind_ok_eval, hr]
  rfl

/-- `getLast?` of a cons, with the head as fallback. -/
theorem getLast?_cons_eq {α : Type} (a : α) (l : List α) :
    (a :: l).getLast? = some ((l.getLast?).getD a) := by
  cases l with
  | nil => rfl
  | cons b l' =>
    rw [List.getLast?_cons_cons]
    obtain ⟨x, hx⟩ := Option.isSome_iff_exists.mp
      (List.getLast?_isSome.mpr (List.cons_ne_nil b l'))
    rw [hx]
    rfl

/-- The build fold computes, per field, the last value supplied by the
processed entries, with the accumulator as fallback. -/
theorem buildFoldl (o : String) (l : List ConfigBuild) (acc : Option String × String) :
    l.foldl
      (fun (acc : Option String × String) c =>
        let an := match c.application_name with
          | some name => some name
          | none => acc.1
        let bp := match c.build_path with
          | some path => replaceAll path "$ORIGIN" o
          | none => acc.2
        (an, bp)) acc
    = (((l.filterMap ConfigBuild.application_name).getLast?.map some).getD acc.1,
       (((l.filterMap ConfigBuild.build_path).getLast?).map
         (fun p => replaceAll p "$ORIGIN" o)).getD acc.2) := by
  induction l generalizing acc with
  | nil => simp
  | cons c rest ih =>
    rw [List.foldl_cons, ih]
    refine Prod.ext ?_ ?_
    · show ((rest.filterMap ConfigBuild.application_name).getLast?.map some).getD _
        = (((c :: rest).filterMap ConfigBuild.application_name).getLast?.map some).getD acc.1
      cases han : c.application_name with
      | none => simp [List.filterMap_cons, han]
      | some n =>
        cases hm : (rest.filterMap ConfigBuild.application_name).getLast? with
        | none => simp [List.filterMap_cons, han, getLast?_cons_eq, hm]
        | some x => simp [List.filterMap_cons, han, getLast?_cons_eq, hm]
    · show (((rest.filterMap ConfigBuild.build_path).getLast?).map _).getD _
        = (((c :: rest).filterMap ConfigBuild.build_path).getLast?.map _).getD acc.2
      cases hbp : c.build_path with
      | none => simp [List.filterMap_cons, hbp]
      | some p =>
        cases hm : (rest.filterMap ConfigBuild.build_path).getLast? with
        | none => simp [List.filterMap_cons, hbp, getLast?_cons_eq, hm]
        | some x => simp [List.filterMap_cons, hbp, getLast?_cons_eq, hm]

/-- Full characterization of the `[[build]]` stage: the last
`application_name` and `build_path` supplied by a target-matching entry
win; a missing name is an error and a missing path falls back to the
origin's `build` subdirectory. -/
theorem resolveBuild_char (bs : List ConfigBuild) (o t : String) :
    resolveBuild bs o t =
      match ((bs.filter (fun c => c.build_target == "all" || c.build_target == t)).filterMap
          ConfigBuild.application_name).getLast? with
      | some name =>
        Except.ok { application_name := name
                    build_path := ((((bs.filter (fun c =>
                        c.build_target == "all" || c.build_target == t)).filterMap
                          ConfigBuild.build_path).getLast?).map
                      (fun p => replaceAll p "$ORIGIN" o)).getD (o ++ "/build") }
      | none => Except.error (ParseErr.err "no [[build]] application_name defined") := by
  simp only [resolveBuild]
  rw [buildFoldl]
  cases hm : ((bs.filter (fun c => c.build_target == "all" || c.build_target == t)).filterMap
      ConfigBuild.application_name).getLast? with
  | none => simp [hm]
  | some name => simp [hm]

/-- A fold that keeps only the incoming element returns the last one. -/
theorem foldl_pick_last {α : Type} (l : List α) (a : α) :
    l.foldl (fun _ r => r) a = (l.getLast?).getD a := by
  induction l generalizing a with
  | nil => rfl
  | cons b rest ih => rw [List.foldl_cons, ih, getLast?_cons_eq]; rfl

/-- The run mode is the conversion of the last matching
`[[embedded_python_run]]` entry, `Noop` when none matches. -/
theorem resolveRunMode_char (rs : List ConfigRunMode) (t : String) :
    resolveRunMode rs t
      = ((rs.filterMap (runMatchConvert t)).getLast?).getD RunMode.Noop :=
  foldl_pick_last _ _

/-- `findSome?` skips a prefix on which the function yields nothing. -/
theorem findSome?_append_none {α β : Type} {f : α → Option β} {pre : List α}
    (hpre : ∀ a ∈ pre, f a = none) (l : List α) :
    (pre ++ l).findSome? f = l.findSome? f := by
  induction pre with
  | nil => rfl
  | cons a rest ih =>
    rw [List.cons_append, List.findSome?_cons, hpre a (List.mem_cons_self a rest)]
    exact ih fun x hx => hpre x (List.mem_cons_of_mem a hx)

/-- A successful `mapM` over `Except`, compressed with `filterMap`,
equals the in-order `filterMap` of the per-element conversions. -/
theorem mapM_ok_filterMap {α β : Type} {f : α → Except ParseErr (Option β)}
    {l : List α} {out : List (Option β)} (h : l.mapM f = Except.ok out) :
    out.filterMap id
      = l.filterMap fun a =>
          match f a with
          | Except.ok o => o
          | Except.error _ => none := by
  induction l generalizing out with
  | nil =>
    simp only [List.mapM_nil, pure, Except.pure, Except.ok.injEq] at h
    simp [← h]
  | cons a rest ih =>
    rw [List.mapM_cons] at h
    obtain ⟨b, hb, h⟩ := bind_ok_elim h
    obtain ⟨bs, hbs, h⟩ := bind_ok_elim h
    simp only [pure, Except.pure, Except.ok.injEq] at h
    subst h
    rw [List.filterMap_cons, List.filterMap_cons, hb, ih hbs]
    cases b <;> rfl

/-- The declared target of a `[[python_distribution]]` entry. -/
def ConfigPythonDistribution.build_target : ConfigPythonDistribution → String
  | ConfigPythonDistribution.Local bt _ _ => bt
  | ConfigPythonDistribution.Url bt _ _ => bt

/-- The declared target of a `[[packaging_rule]]` entry. -/
def ConfigPythonPackaging.build_target : ConfigPythonPackaging → String
  | ConfigPythonPackaging.SetupPyInstall bt _ _ _ _ _ _ => bt
  | ConfigPythonPackaging.StdlibExtensionsPolicy bt _ => bt
  | ConfigPythonPackaging.StdlibExtensionsExplicitIncludes bt _ => bt
  | ConfigPythonPackaging.StdlibExtensionsExplicitExcludes bt _ => bt
  | ConfigPythonPackaging.StdlibExtensionVariant bt _ _ => bt
  | ConfigPythonPackaging.Stdlib bt _ _ _ _ _ => bt
  | ConfigPythonPackaging.Virtualenv bt _ _ _ _ _ => bt
  | ConfigPythonPackaging.PackageRoot bt _ _ _ _ _ _ => bt
  | ConfigPythonPackaging.PipInstallSimple bt _ _ _ _ _ _ => bt
  | ConfigPythonPackaging.PipRequirementsFile bt _ _ _ _ => bt
  | ConfigPythonPackaging.FilterInclude bt _ _ => bt
  | ConfigPythonPackaging.WriteLicenseFiles bt _ => bt

/-- The declared target of an `[[embedded_python_run]]` entry. -/
def ConfigRunMode.build_target : ConfigRunMode → String
  | ConfigRunMode.Noop bt => bt
  | ConfigRunMode.Repl bt => bt
  | ConfigRunMode.Module bt _ => bt
  | ConfigRunMode.Eval bt _ => bt

/-- The declared target of a `[[distribution]]` entry. -/
def ConfigDistribution.build_target : ConfigDistribution → String
  | ConfigDistribution.Tarball bt _ => bt
  | ConfigDistribution.WixInstaller bt _ _ _ => bt

/-! ## Claims -/

/-- The manifest of the spec's end-to-end property: one `build`, one
`python_distribution`, one `stdlib` rule and one `stdlib-extensions-policy`
rule, all targeting `"all"`. -/
def c1Manifest : ParsedConfig :=
  { baseManifest with python_distributions := [distAll] }

/-- C1, counterexample.  A `python_distribution` entry whose `build_target`
is the wildcard `"all"` is NOT selected when resolving for the concrete
target `"linux"`: the distribution filter compares the declared target with
the requested one by equality only, so the spec's end-to-end manifest
(every section targeting `"all"`) fails with the no-matching-distribution
error instead of succeeding. -/
theorem C1_counterexample :
    distAll = ConfigPythonDistribution.Local "all" "/dist/cpython.tar.zst" "abc123" ∧
    c1Manifest.python_distributions = [distAll] ∧
    parse_config c1Manifest "cp" "/o" "linux"
      = Except.error (ParseErr.err "no suitable Python distributions found for target linux") :=
  ⟨rfl, rfl, rfl⟩

/-- C1, amended.  A rule of the `build`, `embedded_python_config`,
`packaging_rule`, `embedded_python_run` and `distribution` categories is
active iff its declared `build_target` is `"all"` or equals the requested
target exactly; `python_distribution` entries are the exception: one is
considered only when its `build_target` equals the requested target
exactly, with no wildcard. -/
theorem C1_amended_wildcard_matching :
    (∀ (d : ConfigPythonDistribution) (t : String),
      (pdMatchConvert t d).isSome ↔ d.build_target = t) ∧
    (∀ (bs : List ConfigBuild) (o t : String),
      resolveBuild bs o t
        = resolveBuild (bs.filter (fun c => c.build_target == "all" || c.build_target == t)) o t) ∧
    (∀ (config : ParsedConfig) (cp o t : String) (c : ConfigPython),
      ¬(c.build_target = "all" ∨ c.build_target = t) →
      parse_config { config with python_configs := config.python_configs ++ [c] } cp o t
        = parse_config config cp o t) ∧
    (∀ (r : ConfigPythonPackaging) (t : String),
      convertPackagingRule t r = Except.ok none
        ↔ ¬(r.build_target = "all" ∨ r.build_target = t)) ∧
    (∀ (rm : ConfigRunMode) (t : String),
      (runMatchConvert t rm).isSome ↔ (rm.build_target = "all" ∨ rm.build_target = t)) ∧
    (∀ (d : ConfigDistribution) (t : String),
      convertDistribution t d = Except.ok none
        ↔ ¬(d.build_target = "all" ∨ d.build_target = t)) := by
  refine ⟨?_, ?_, ?_, ?_, ?_, ?_⟩
  · intro d t
    cases d <;>
      (simp only [pdMatchConvert, ConfigPythonDistribution.build_target]; split <;> simp [*])
  · intro bs o t
    simp only [resolveBuild, List.filter_filter, Bool.and_self]
  · intro config cp o t c h
    push_neg at h
    have hpc : (c.build_target == "all" || c.build_target == t) = false := by
      simp [h.1, h.2]
    have hfilter : filterPythonConfigs (config.python_configs ++ [c]) t
        = filterPythonConfigs config.python_configs t := by
      simp [filterPythonConfigs, List.filter_append, hpc]
    unfold parse_config
    simp only [hfilter]
  · intro r t
    cases r <;>
      (simp only [convertPackagingRule, ConfigPythonPackaging.build_target]
       split
       · rename_i hcond
         cases hro : resolve_install_location (by assumption : String) <;>
           simp [hcond, exceptBind_ok_eval, exceptBind_error_eval]
       · rename_i hcond
         simp [hcond])
  · intro rm t
    cases rm <;>
      (simp only [runMatchConvert, ConfigRunMode.build_target]; split <;> simp [*])
  · intro d t
    cases d <;>
      (simp only [convertDistribution, ConfigDistribution.build_target]; split <;> simp [*])

/-- C1, witness for the amended statement. -/
theorem C1_amended_witness :
    parse_config
        { baseManifest with
            python_configs := baseManifest.python_configs
              ++ [{ basePy with build_target := "windows" }] } "cp" "/o" "linux"
      = parse_config baseManifest "cp" "/o" "linux" :=
  C1_amended_wildcard_matching.2.2.1 baseManifest "cp" "/o" "linux"
    { basePy with build_target := "windows" } (by decide)

/-- A manifest whose single matching `embedded_python_config` entry
carries a `stdio_encoding` with no `':'` separator. -/
def c2PanicManifest : ParsedConfig :=
  { baseManifest with python_configs := [{ basePy with stdio_encoding := some "utf-8" }] }

/-- The same manifest with a well-formed `name:errors` token. -/
def c2OkManifest : ParsedConfig :=
  { baseManifest with python_configs := [{ basePy with stdio_encoding := some "utf-8:strict" }] }

/-- C2.  Evaluating the embedded code at the failing input: a
target-matching `stdio_encoding` with no `':'` separator drives
`parse_config` into the out-of-bounds `values[1]` index (a Rust panic,
modelled as the `panicIndexOutOfBounds` outcome) — it does not return the
hard parse error the spec prescribes, so `parse_config` is not total on
this input.  With the separator present, the piece before it becomes
`stdio_encoding_name` and the piece after it `stdio_encoding_errors`. -/
theorem C2_stdio_no_separator_panics :
    parse_config c2PanicManifest "cp" "/o" "linux"
      = Except.error ParseErr.panicIndexOutOfBounds ∧
    (parse_config c2OkManifest "cp" "/o" "linux").map
        (fun c => (c.stdio_encoding_name, c.stdio_encoding_errors))
      = Except.ok (some "utf-8", some "strict") :=
  ⟨rfl, rfl⟩

/-- C3.  `python_distribution` resolution: an empty section list is the
`NoDistributionSections` error, a non-empty list in which no entry matches
is the `NoMatchingDistribution` error, and otherwise the result is the
conversion of the first matching entry in declaration order — entries after
the first match never contribute. -/
theorem C3_distribution_first_wins (ds : List ConfigPythonDistribution) (t : String) :
    (ds = [] → resolvePythonDistribution ds t
      = Except.error (ParseErr.err "no [[python_distribution]] sections")) ∧
    (ds ≠ [] → (∀ d ∈ ds, pdMatchConvert t d = none) →
      resolvePythonDistribution ds t
        = Except.error (ParseErr.err
            ("no suitable Python distributions found for target " ++ t))) ∧
    (∀ (pre post : List ConfigPythonDistribution) (d : ConfigPythonDistribution)
        (v : PythonDistribution),
      ds = pre ++ d :: post → (∀ d' ∈ pre, pdMatchConvert t d' = none) →
      pdMatchConvert t d = some v →
      resolvePythonDistribution ds t = Except.ok v) := by
  refine ⟨?_, ?_, ?_⟩
  · intro h
    subst h
    rfl
  · intro hne hnone
    unfold resolvePythonDistribution
    rw [if_neg (by simpa using hne)]
    rw [List.findSome?_eq_none_iff.mpr hnone]
  · intro pre post d v hds hpre hd
    subst hds
    unfold resolvePythonDistribution
    rw [if_neg (by simp)]
    rw [findSome?_append_none hpre, List.findSome?_cons, hd]

/-- C3, witness: two entries both declared for target `"linux"`; the
resolved distribution is the first one's conversion, the second's values
never appear. -/
theorem C3_witness :
    resolvePythonDistribution
        [distLinux, ConfigPythonDistribution.Local "linux" "/other/path" "ffff"] "linux"
      = Except.ok (PythonDistribution.Local "/dist/cpython.tar.zst" "abc123") :=
  (C3_distribution_first_wins
      [distLinux, ConfigPythonDistribution.Local "linux" "/other/path" "ffff"]
      "linux").2.2
    [] [ConfigPythonDistribution.Local "linux" "/other/path" "ffff"] distLinux
    (PythonDistribution.Local "/dist/cpython.tar.zst" "abc123")
    rfl (by intro d' hd'; simp at hd') rfl

/-- C4.  Layering is last-wins applied independently per field.  (1) One
entry update: every field present overwrites exactly that field, every
absent field retains the running value.  (2) The fold over a sequence of
entries processes them in declaration order, so a trailing entry updates
the state the earlier entries produced.  (3) The `build` stage resolves to
the last `application_name` and last `build_path` supplied by matching
entries, each field independently, with the defaults (no name is an error;
the path defaults to the origin's `build` subdirectory).  (4) The run mode
is the last matching entry's conversion and defaults to `Noop` when no
entry matches. -/
theorem C4_last_wins_per_field :
    (∀ (s : PyCfgState) (c : ConfigPython),
      (∀ v, c.optimize_level = some v → v = 0 ∨ v = 1 ∨ v = 2) →
      (∀ v, c.stdio_encoding = some v → ((splitChar ':' v).get? 1).isSome) →
      (c.terminfo_resolution = some ConfigTerminfoResolution.Static →
        c.terminfo_dirs.isSome) →
      ∃ s', updatePythonConfig s c = Except.ok s' ∧
        s'.dont_write_bytecode = c.dont_write_bytecode.getD s.dont_write_bytecode ∧
        s'.ignore_environment = c.ignore_environment.getD s.ignore_environment ∧
        s'.no_site = c.no_site.getD s.no_site ∧
        s'.no_user_site_directory
          = c.no_user_site_directory.getD s.no_user_site_directory ∧
        s'.optimize_level = c.optimize_level.getD s.optimize_level ∧
        s'.unbuffered_stdio = c.unbuffered_stdio.getD s.unbuffered_stdio ∧
        s'.filesystem_importer = c.filesystem_importer.getD s.filesystem_importer ∧
        s'.sys_frozen = c.sys_frozen.getD s.sys_frozen ∧
        s'.sys_meipass = c.sys_meipass.getD s.sys_meipass ∧
        s'.sys_paths = c.sys_paths.getD s.sys_paths ∧
        s'.raw_allocator = c.raw_allocator.getD s.raw_allocator ∧
        s'.write_modules_directory_env
          = (c.write_modules_directory_env.map some).getD s.write_modules_directory_env ∧
        (c.stdio_encoding = none →
          s'.stdio_encoding_name = s.stdio_encoding_name ∧
          s'.stdio_encoding_errors = s.stdio_encoding_errors) ∧
        (c.terminfo_resolution = none →
          s'.terminfo_resolution = s.terminfo_resolution)) ∧
    (∀ (cs : List ConfigPython) (c : ConfigPython) (s0 : PyCfgState),
      foldPythonConfigs (cs ++ [c]) s0
        = (foldPythonConfigs cs s0) >>= fun s => updatePythonConfig s c) ∧
    (∀ (bs : List ConfigBuild) (o t : String),
      resolveBuild bs o t =
        match ((bs.filter (fun c => c.build_target == "all" || c.build_target == t)).filterMap
            ConfigBuild.application_name).getLast? with
        | some name =>
          Except.ok { application_name := name
                      build_path := ((((bs.filter (fun c =>
                          c.build_target == "all" || c.build_target == t)).filterMap
                            ConfigBuild.build_path).getLast?).map
                        (fun p => replaceAll p "$ORIGIN" o)).getD (o ++ "/build") }
        | none => Except.error (ParseErr.err "no [[build]] application_name defined")) ∧
    (∀ (rs : List ConfigRunMode) (t : String),
      resolveRunMode rs t
        = ((rs.filterMap (runMatchConvert t)).getLast?).getD RunMode.Noop) := by
  refine ⟨?_, ?_, resolveBuild_char, resolveRunMode_char⟩
  · intro s c h1 h2 h3
    obtain ⟨s', hok⟩ := updatePythonConfig_ok_of_valid s c h1 h2 h3
    have he := updatePythonConfig_ok_elim hok
    refine ⟨s', hok, ?_⟩
    subst he
    refine ⟨rfl, rfl, rfl, rfl, rfl, rfl, rfl, rfl, rfl, rfl, rfl, rfl, ?_, ?_⟩
    · intro hse
      rw [hse]
      exact ⟨rfl, rfl⟩
    · intro htr
      rw [htr]
  · intro cs c s0
    rw [foldPythonConfigs_append]
    have hsingle : ∀ s : PyCfgState, foldPythonConfigs [c] s = updatePythonConfig s c := by
      intro s
      simp only [foldPythonConfigs]
      cases updatePythonConfig s c <;> rfl
    exact congrArg _ (funext hsingle)

/-- C4, witness: a three-layer merge.  The middle entry sets `no_site` and
`optimize_level`, the last sparse entry sets only `unbuffered_stdio`; the
merged state keeps the middle entry's fields (no whole-record replacement)
and an empty run list resolves to `Noop`. -/
theorem C4_witness :
    ∃ s', updatePythonConfig
        { initPyCfgState "linux" with no_site := false, optimize_level := 2 }
        { basePy with unbuffered_stdio := some true } = Except.ok s' ∧
      s'.no_site = false ∧ s'.optimize_level = 2 ∧ s'.unbuffered_stdio = true ∧
      resolveRunMode [] "linux" = RunMode.Noop := by
  obtain ⟨s', hok, hdwb, hie, hns, hnus, hol, hus, hfi, hsf, hsm, hsp, hra, hwm, hstd, htr⟩ :=
    C4_last_wins_per_field.1
      { initPyCfgState "linux" with no_site := false, optimize_level := 2 }
      { basePy with unbuffered_stdio := some true }
      (fun _ hv => Option.noConfusion hv)
      (fun _ hv => Option.noConfusion hv)
      (fun hv => Option.noConfusion hv)
  exact ⟨s', hok, hns.trans rfl, hol.trans rfl, hus.trans rfl,
    C4_last_wins_per_field.2.2.2 [] "linux"⟩

/-- C5.  The `packaging_rule` stage (on a rule list whose per-rule
conversion raises no install-location error): it fails with the
missing-stdlib-extensions-policy error when no rule of that variant
matches the target, fails with the missing-stdlib error when a policy rule
matches but no `stdlib` rule does, and otherwise succeeds with the
converted surviving rules in declaration order.  An error of this stage is
the error of the whole resolution (the earlier stages having
succeeded). -/
theorem C5_stdlib_requirements :
    (∀ (rules : List ConfigPythonPackaging) (t : String)
        (cs : List (Option PythonPackaging)),
      rules.mapM (convertPackagingRule t) = Except.ok cs →
      (rules.any (isMatchingPolicy t) = false →
        resolvePackagingRules rules t = Except.error (ParseErr.err
          "no `type = \"stdlib-extensions-policy\"` entry in `[[packaging_rule]]`")) ∧
      (rules.any (isMatchingPolicy t) = true → rules.any (isMatchingStdlib t) = false →
        resolvePackagingRules rules t = Except.error
          (ParseErr.err "no `type = \"stdlib\"` entry in `[[packaging_rule]]`")) ∧
      (rules.any (isMatchingPolicy t) = true → rules.any (isMatchingStdlib t) = true →
        resolvePackagingRules rules t = Except.ok
          (rules.filterMap fun r =>
            match convertPackagingRule t r with
            | Except.ok o => o
            | Except.error _ => none))) ∧
    (∀ (config : ParsedConfig) (cp o t : String) (bc : BuildConfig)
        (pd : PythonDistribution) (s : PyCfgState) (e : ParseErr),
      resolveBuild config.builds o t = Except.ok bc →
      resolvePythonDistribution config.python_distributions t = Except.ok pd →
      foldPythonConfigs (filterPythonConfigs config.python_configs t)
        (initPyCfgState t) = Except.ok s →
      resolvePackagingRules config.packaging_rules t = Except.error e →
      parse_config config cp o t = Except.error e) := by
  constructor
  · intro rules t cs hcs
    refine ⟨?_, ?_, ?_⟩
    · intro hpol
      unfold resolvePackagingRules
      rw [hcs, exceptBind_ok_eval, hpol]
      rfl
    · intro hpol hstd
      unfold resolvePackagingRules
      rw [hcs, exceptBind_ok_eval, hpol, hstd]
      rfl
    · intro hpol hstd
      unfold resolvePackagingRules
      rw [hcs, exceptBind_ok_eval, hpol, hstd]
      simp only [Bool.not_true, Bool.false_eq_true, if_false]
      rw [mapM_ok_filterMap hcs]
      exact congrArg Except.ok
        (List.filterMap_congr (fun a _ => by cases convertPackagingRule t a <;> rfl))
  · intro config cp o t bc pd s e hb hd hf hr
    exact parse_config_err_rules hb hd hf hr

/-- C5, witness: a `stdlib-extensions-policy` rule declared for target
`"windows"` does not satisfy the requirement when resolving for
`"linux"`. -/
theorem C5_witness :
    resolvePackagingRules
        [ConfigPythonPackaging.StdlibExtensionsPolicy "windows" "all", ruleStdlib] "linux"
      = Except.error (ParseErr.err
          "no `type = \"stdlib-extensions-policy\"` entry in `[[packaging_rule]]`") :=
  ((C5_stdlib_requirements.1
      [ConfigPythonPackaging.StdlibExtensionsPolicy "windows" "all", ruleStdlib]
      "linux" _ rfl).1 (by decide))

/-- C6.  An entry selecting `terminfo_resolution = static` (its other
fallible fields being valid) fails with the terminfo-dirs-required error
when the same entry carries no `terminfo_dirs`, and succeeds carrying the
directory string when it does; an `embedded_python_config` fold error is
the error of the whole resolution. -/
theorem C6_terminfo_static :
    (∀ (s : PyCfgState) (c : ConfigPython),
      (∀ v, c.optimize_level = some v → v = 0 ∨ v = 1 ∨ v = 2) →
      (∀ v, c.stdio_encoding = some v → ((splitChar ':' v).get? 1).isSome) →
      c.terminfo_resolution = some ConfigTerminfoResolution.Static →
      ((c.terminfo_dirs = none →
        updatePythonConfig s c = Except.error (ParseErr.err
          "terminfo_resolution = static requires terminfo_dirs to be set")) ∧
       (∀ d, c.terminfo_dirs = some d →
        ∃ s', updatePythonConfig s c = Except.ok s' ∧
          s'.terminfo_resolution = TerminfoResolution.Static d))) ∧
    (∀ (config : ParsedConfig) (cp o t : String) (bc : BuildConfig)
        (pd : PythonDistribution) (e : ParseErr),
      resolveBuild config.builds o t = Except.ok bc →
      resolvePythonDistribution config.python_distributions t = Except.ok pd →
      foldPythonConfigs (filterPythonConfigs config.python_configs t)
        (initPyCfgState t) = Except.error e →
      parse_config config cp o t = Except.error e) := by
  constructor
  · intro s c h1 h2 htr
    constructor
    · intro htd
      rw [updatePythonConfig_def]
      set s4 := apply_no_user_site_directory
        (apply_no_site (apply_ignore_environment (apply_dont_write_bytecode s c) c) c) c
      have hok5 : ∃ u, apply_optimize_level s4 c = Except.ok u := by
        cases hol : c.optimize_level with
        | none => exact ⟨s4, by simp [apply_optimize_level, hol]⟩
        | some v => exact ⟨_, apply_optimize_level_valid hol (h1 v hol)⟩
      obtain ⟨s5, h5⟩ := hok5
      rw [h5, exceptBind_ok_eval]
      have hok6 : ∃ u, apply_stdio_encoding s5 c = Except.ok u := by
        cases hse : c.stdio_encoding with
        | none => exact ⟨s5, by simp [apply_stdio_encoding, hse]⟩
        | some v =>
          obtain ⟨errs, herrs⟩ := Option.isSome_iff_exists.mp (h2 v hse)
          exact ⟨_, apply_stdio_encoding_some_ok hse herrs⟩
      obtain ⟨s6, h6⟩ := hok6
      rw [h6, exceptBind_ok_eval]
      rw [apply_terminfo_resolution_static_missing htr htd]
      rfl
    · intro d htd
      obtain ⟨s', hok⟩ := updatePythonConfig_ok_of_valid s c h1 h2
        (fun _ => by rw [htd]; rfl)
      refine ⟨s', hok, ?_⟩
      have he := updatePythonConfig_ok_elim hok
      rw [he]
      show (match c.terminfo_resolution with
        | some ConfigTerminfoResolution.Dynamic => TerminfoResolution.Dynamic
        | some ConfigTerminfoResolution.None => TerminfoResolution.None
        | some ConfigTerminfoResolution.Static =>
          TerminfoResolution.Static (c.terminfo_dirs.getD "")
        | none => s.terminfo_resolution) = TerminfoResolution.Static d
      rw [htr, htd]
      rfl
  · intro config cp o t bc pd e hb hd hf
    exact parse_config_err_fold hb hd hf

/-- C6, witness. -/
theorem C6_witness :
    updatePythonConfig (initPyCfgState "linux")
        { basePy with terminfo_resolution := some ConfigTerminfoResolution.Static }
      = Except.error (ParseErr.err
          "terminfo_resolution = static requires terminfo_dirs to be set") ∧
    ∃ s', updatePythonConfig (initPyCfgState "linux")
        { basePy with terminfo_resolution := some ConfigTerminfoResolution.Static
                      terminfo_dirs := some "/usr/share/terminfo" }
        = Except.ok s' ∧
      s'.terminfo_resolution = TerminfoResolution.Static "/usr/share/terminfo" :=
  ⟨(C6_terminfo_static.1 (initPyCfgState "linux")
      { basePy with terminfo_resolution := some ConfigTerminfoResolution.Static }
      (fun _ hv => Option.noConfusion hv) (fun _ hv => Option.noConfusion hv) rfl).1 rfl,
   (C6_terminfo_static.1 (initPyCfgState "linux")
      { basePy with terminfo_resolution := some ConfigTerminfoResolution.Static
                    terminfo_dirs := some "/usr/share/terminfo" }
      (fun _ hv => Option.noConfusion hv) (fun _ hv => Option.noConfusion hv) rfl).2
     "/usr/share/terminfo" rfl⟩

/-- C7.  A manifest whose only `build` entry targets `"all"` and supplies
both fields resolves, for any requested target, to that entry's
`application_name` and to its `build_path` with every `$ORIGIN` replaced
by the manifest's containing directory; and a manifest in which no
target-matching `build` entry ever supplies an `application_name` fails
with the missing-application-name error. -/
theorem C7_build_resolution :
    (∀ (config : ParsedConfig) (cp o t : String) (cfg : Config) (b : ConfigBuild)
        (name p : String),
      config.builds = [b] → b.build_target = "all" →
      b.application_name = some name → b.build_path = some p →
      parse_config config cp o t = Except.ok cfg →
      cfg.build_config.application_name = name ∧
      cfg.build_config.build_path = replaceAll p "$ORIGIN" o) ∧
    (∀ (config : ParsedConfig) (cp o t : String),
      (∀ b ∈ config.builds, (b.build_target = "all" ∨ b.build_target = t) →
        b.application_name = none) →
      parse_config config cp o t
        = Except.error (ParseErr.err "no [[build]] application_name defined")) := by
  constructor
  · intro config cp o t cfg b name p hbs hball hbname hbpath hok
    obtain ⟨bc, pd, s, pp, ds, hbc, _, _, _, _, hcfg⟩ := parse_config_ok_elim hok
    have hfilter : config.builds.filter
        (fun c => c.build_target == "all" || c.build_target == t) = [b] := by
      rw [hbs]
      simp [List.filter, hball]
    rw [resolveBuild_char, hfilter] at hbc
    rw [List.filterMap_cons, List.filterMap_cons, hbname, hbpath] at hbc
    simp only [List.filterMap_nil, List.getLast?_singleton, Option.map_some,
      Option.getD_some, Except.ok.injEq] at hbc
    rw [hcfg]
    show bc.application_name = name ∧ bc.build_path = replaceAll p "$ORIGIN" o
    rw [← hbc]
    exact ⟨rfl, rfl⟩
  · intro config cp o t hnone
    apply parse_config_err_build
    rw [resolveBuild_char]
    have hnil : (config.builds.filter
        (fun c => c.build_target == "all" || c.build_target == t)).filterMap
          ConfigBuild.application_name = [] := by
      rw [List.filterMap_eq_nil_iff]
      intro b hb
      obtain ⟨hmem, hp⟩ := List.mem_filter.mp hb
      exact hnone b hmem (by simpa using hp)
    rw [hnil]
    rfl

/-- C7, witness: a successful end-to-end resolution with `$ORIGIN`
substitution, and a failing one whose only entry lacks a name. -/
theorem C7_witness :
    (∃ cfg, parse_config
        { baseManifest with builds :=
            [{ build_target := "all", application_name := some "app2",
               build_path := some "$ORIGIN/out" }] } "cp" "/o" "linux"
        = Except.ok cfg ∧
      cfg.build_config.application_name = "app2" ∧
      cfg.build_config.build_path = replaceAll "$ORIGIN/out" "$ORIGIN" "/o") ∧
    parse_config
        { baseManifest with builds :=
            [{ build_target := "all", application_name := none, build_path := none }] }
        "cp" "/o" "linux"
      = Except.error (ParseErr.err "no [[build]] application_name defined") := by
  constructor
  · refine ⟨_, rfl, ?_⟩
    exact C7_build_resolution.1
      { baseManifest with builds :=
          [{ build_target := "all", application_name := some "app2",
             build_path := some "$ORIGIN/out" }] }
      "cp" "/o" "linux" _ _ "app2" "$ORIGIN/out" rfl rfl rfl rfl rfl
  · exact C7_build_resolution.2
      { baseManifest with builds :=
          [{ build_target := "all", application_name := none, build_path := none }] }
      "cp" "/o" "linux" (by decide)

/-- A manifest in which an earlier matching entry supplies a non-empty
`sys_paths` list and a later matching entry overrides it with the empty
list. -/
def c8Manifest : ParsedConfig :=
  { baseManifest with python_configs :=
      [{ basePy with sys_paths := some ["/extra"] },
       { basePy with sys_paths := some [] }] }

/-- C8, counterexample.  A target-matching entry supplies the non-empty
`sys_paths` override `["/extra"]` (so the claim predicts
`filesystem_importer = true`), yet resolution succeeds with
`filesystem_importer = false`: each `sys_paths` override replaces the
whole running list, and only the final list is consulted. -/
theorem C8_counterexample :
    ((c8Manifest.python_configs.filter
        (fun c => c.build_target == "all" || c.build_target == "linux")).any
      (fun c => !(c.sys_paths.getD []).isEmpty)) = true ∧
    (parse_config c8Manifest "cp" "/o" "linux").map (fun c => c.filesystem_importer)
      = Except.ok false :=
  ⟨rfl, rfl⟩

/-- C8, amended.  In a successful resolution, `filesystem_importer` is the
disjunction of the explicit flag — the value of the last matching entry
that set it, `false` if none did — with the non-emptiness of the final
resolved `sys_paths` list, which is the last `sys_paths` override supplied
by a matching entry (each override replacing the whole list), `[]` if none
was supplied. -/
theorem C8_filesystem_importer_amended
    (config : ParsedConfig) (cp o t : String) (cfg : Config)
    (h : parse_config config cp o t = Except.ok cfg) :
    ∃ s, foldPythonConfigs (filterPythonConfigs config.python_configs t)
        (initPyCfgState t) = Except.ok s ∧
      cfg.filesystem_importer = (s.filesystem_importer || !s.sys_paths.isEmpty) ∧
      s.filesystem_importer
        = (((filterPythonConfigs config.python_configs t).filterMap
            ConfigPython.filesystem_importer).getLast?).getD false ∧
      s.sys_paths
        = (((filterPythonConfigs config.python_configs t).filterMap
            ConfigPython.sys_paths).getLast?).getD [] ∧
      cfg.sys_paths = s.sys_paths := by
  obtain ⟨bc, pd, s, pp, ds, _, _, hs, _, _, hcfg⟩ := parse_config_ok_elim h
  refine ⟨s, hs, ?_, ?_, ?_, ?_⟩
  · rw [hcfg]
  · exact foldPythonConfigs_filesystem_importer hs
  · exact foldPythonConfigs_sys_paths hs
  · rw [hcfg]

/-- The manifest for the amended claim's witness: the single matching
entry leaves the explicit flag unset and supplies a non-empty
`sys_paths`. -/
def c8wManifest : ParsedConfig :=
  { baseManifest with python_configs := [{ basePy with sys_paths := some ["/a"] }] }

/-- C8, witness for the amended statement. -/
theorem C8_amended_witness :
    ∃ s, foldPythonConfigs (filterPythonConfigs c8wManifest.python_configs "linux")
        (initPyCfgState "linux") = Except.ok s ∧ s.sys_paths = ["/a"] := by
  obtain ⟨s, hs, _, _, hsp, _⟩ :=
    C8_filesystem_importer_amended c8wManifest "cp" "/o" "linux" _ rfl
  exact ⟨s, hs, hsp.trans rfl⟩

/-- C9.  An `optimize_level` outside {0, 1, 2} in a matching entry aborts
the entry update with the illegal-optimize-level error naming the value,
whatever the rest of the entry holds; a value in {0, 1, 2} (the entry
otherwise valid) is stored as given; over a successful fold the last
supplied value wins, with `0` the default when no entry supplies one; a
successful resolution carries the folded value, and a fold error (the
earlier stages having succeeded) is the error of the whole resolution. -/
theorem C9_optimize_level :
    (∀ (s : PyCfgState) (c : ConfigPython) (v : Int),
      c.optimize_level = some v → ¬(v = 0 ∨ v = 1 ∨ v = 2) →
      updatePythonConfig s c = Except.error (ParseErr.err
        ("illegal optimize_level " ++ toString v ++ "; value must be 0, 1, or 2"))) ∧
    (∀ (s : PyCfgState) (c : ConfigPython) (v : Int),
      c.optimize_level = some v → (v = 0 ∨ v = 1 ∨ v = 2) →
      (∀ w, c.stdio_encoding = some w → ((splitChar ':' w).get? 1).isSome) →
      (c.terminfo_resolution = some ConfigTerminfoResolution.Static →
        c.terminfo_dirs.isSome) →
      ∃ s', updatePythonConfig s c = Except.ok s' ∧ s'.optimize_level = v) ∧
    (∀ (cs : List ConfigPython) (s0 s : PyCfgState),
      foldPythonConfigs cs s0 = Except.ok s →
      s.optimize_level
        = ((cs.filterMap ConfigPython.optimize_level).getLast?).getD s0.optimize_level) ∧
    (∀ (config : ParsedConfig) (cp o t : String) (cfg : Config),
      parse_config config cp o t = Except.ok cfg →
      ∃ s, foldPythonConfigs (filterPythonConfigs config.python_configs t)
          (initPyCfgState t) = Except.ok s ∧ cfg.optimize_level = s.optimize_level) ∧
    (∀ (config : ParsedConfig) (cp o t : String) (bc : BuildConfig)
        (pd : PythonDistribution) (e : ParseErr),
      resolveBuild config.builds o t = Except.ok bc →
      resolvePythonDistribution config.python_distributions t = Except.ok pd →
      foldPythonConfigs (filterPythonConfigs config.python_configs t)
        (initPyCfgState t) = Except.error e →
      parse_config config cp o t = Except.error e) := by
  refine ⟨?_, ?_, ?_, ?_, ?_⟩
  · intro s c v hol hv
    rw [updatePythonConfig_def]
    rw [apply_optimize_level_invalid hol hv]
    rfl
  · intro s c v hol hv h2 h3
    obtain ⟨s', hok⟩ := updatePythonConfig_ok_of_valid s c
      (fun w hw => by rw [hol] at hw; injection hw with h; rw [← h]; exact hv) h2 h3
    refine ⟨s', hok, ?_⟩
    have he := updatePythonConfig_ok_elim hok
    rw [he]
    show c.optimize_level.getD s.optimize_level = v
    rw [hol]
    rfl
  · intro cs s0 s h
    exact foldPythonConfigs_optimize_level h
  · intro config cp o t cfg h
    obtain ⟨bc, pd, s, pp, ds, _, _, hs, _, _, hcfg⟩ := parse_config_ok_elim h
    exact ⟨s, hs, by rw [hcfg]⟩
  · intro config cp o t bc pd e hb hd hf
    exact parse_config_err_fold hb hd hf

/-- C9, witness: `optimize_level = 3` is rejected with the exact error
message; `optimize_level = 2` is stored. -/
theorem C9_witness :
    updatePythonConfig (initPyCfgState "linux") { basePy with optimize_level := some 3 }
      = Except.error (ParseErr.err
          ("illegal optimize_level " ++ toString (3 : Int)
            ++ "; value must be 0, 1, or 2")) ∧
    ∃ s', updatePythonConfig (initPyCfgState "linux")
        { basePy with optimize_level := some 2 } = Except.ok s' ∧
      s'.optimize_level = 2 :=
  ⟨C9_optimize_level.1 (initPyCfgState "linux")
      { basePy with optimize_level := some 3 } 3 rfl (by decide),
   C9_optimize_level.2.1 (initPyCfgState "linux")
      { basePy with optimize_level := some 2 } 2 rfl (by decide)
      (fun _ hw => Option.noConfusion hw) (fun hv => Option.noConfusion hv)⟩

/-- C10.  Submitting a resource whose dynamic type name is not
`PythonModuleSource` to `add_in_memory_impl` fails with the `TypeError`
naming the offending kind and returns the collector state exactly as it
was — no partial mutation on the error path — for every collector state
type, every external add function and every state. -/
theorem C10_unsupported_resource_kind
    (σ : Type)
    (add_in_memory_python_module_source :
      σ → PythonModuleSourceResource → σ × Except String Unit)
    (collector : σ) (resource : PyResource)
    (h : resource.typeName ≠ "PythonModuleSource") :
    add_in_memory_impl add_in_memory_python_module_source collector resource
      = (collector, Except.error (PyErrKind.typeError
          ("cannot operate on " ++ resource.typeName ++ " values"))) := by
  unfold add_in_memory_impl
  rw [if_neg h]

/-- C10, witness: submitting a `bytes` object to a list-backed collector
leaves the recorded list untouched. -/
theorem C10_witness :
    add_in_memory_impl
        (fun (c : List PythonModuleSourceResource) m => (m :: c, Except.ok ()))
        [] { typeName := "bytes", moduleSource := none }
      = ([], Except.error (PyErrKind.typeError "cannot operate on bytes values")) :=
  C10_unsupported_resource_kind (List PythonModuleSourceResource)
    (fun c m => (m :: c, Except.ok ())) []
    { typeName := "bytes", moduleSource := none } (by decide)

end PyOx
